import Mathlib

/-!
Verification of the coompel firmware core against its specification.

Each component of the firmware that the specification describes is shallowly
embedded as pure Lean definitions: fields of the C++ classes become structure
fields, member functions become state-transforming functions, and the 32-bit
unsigned arithmetic of `millis()`-based timestamps is made explicit through
`sub32`.  The theorems at the end of the file settle the specification claims
against these definitions.
-/

set_option maxRecDepth 4000

/-- Modulus of the 32-bit unsigned integers used for `millis()` timestamps,
positions and counters on the ESP32 target. -/
def MOD32 : Nat := 2 ^ 32

/-- Wrapping subtraction `a - b` on 32-bit unsigned integers (the semantics of
`currentTime - lastTime` on `unsigned long`/`uint32_t` values). Arguments are
taken modulo `2^32` first, matching the machine representation. -/
def sub32 (a b : Nat) : Nat :=
  (a % MOD32 + (MOD32 - b % MOD32)) % MOD32

namespace Button

/-- Events reported by the `Button` debouncer (`Button.h`, `enum class
ButtonEvent`). -/
inductive ButtonEvent where
  | NONE
  | PRESSED
  | RELEASED
  | CLICK
  | DOUBLE_CLICK
  | LONG_PRESS
  | LONG_PRESS_HOLD
deriving DecidableEq, Repr

/-- State of one `Button` instance (the fields of class `Button` that the
update logic reads and writes; pin/callback plumbing is omitted).  Timestamps
are `millis()` values (32-bit, milliseconds). -/
structure State where
  lastState : Bool
  debouncedState : Bool
  lastEvent : ButtonEvent
  lastDebounceTime : Nat
  pressedTime : Nat
  releasedTime : Nat
  lastClickTime : Nat
  debounceDelay : Nat
  longPressThreshold : Nat
  doubleClickWindow : Nat
  pressedEdge : Bool
  releasedEdge : Bool
  longPressTriggered : Bool
  clickCount : Nat
deriving DecidableEq, Repr

/-- State established by the `Button` constructor with the default timing
configuration (debounce 50 ms, long press 1000 ms, double-click window
300 ms). -/
def initialState : State :=
  { lastState := false
    debouncedState := false
    lastEvent := .NONE
    lastDebounceTime := 0
    pressedTime := 0
    releasedTime := 0
    lastClickTime := 0
    debounceDelay := 50
    longPressThreshold := 1000
    doubleClickWindow := 300
    pressedEdge := false
    releasedEdge := false
    longPressTriggered := false
    clickCount := 0 }

/-- Click vs. double-click classification, `Button::detectEvents`.  Returns the
new state together with the event that is emitted (assigned to `_lastEvent`
and delivered through the callback). -/
def detectEvents (s : State) (currentTime : Nat) : State × ButtonEvent :=
  let timeSinceLastClick := sub32 currentTime s.lastClickTime
  if timeSinceLastClick < s.doubleClickWindow ∧ s.clickCount = 1 then
    ({ s with clickCount := 0, lastEvent := .DOUBLE_CLICK }, .DOUBLE_CLICK)
  else
    ({ s with clickCount := 1, lastClickTime := currentTime,
              lastEvent := .CLICK }, .CLICK)

/-- One call of `Button::update` given the debounced raw reading for this tick
and the current `millis()` time.  Returns the new state and the list of events
delivered through the callback during this call, in order.  (The final
`LONG_PRESS_HOLD` case only assigns `_lastEvent` and deliberately does not
fire the callback.) -/
def update (s : State) (rawState : Bool) (currentTime : Nat) :
    State × List ButtonEvent :=
  -- Reset edge flags
  let s := { s with pressedEdge := false, releasedEdge := false,
                    lastEvent := .NONE }
  -- Debounce logic
  let s := if rawState ≠ s.lastState then
             { s with lastDebounceTime := currentTime }
           else s
  let (s, evs) :=
    if sub32 currentTime s.lastDebounceTime > s.debounceDelay then
      if rawState ≠ s.debouncedState then
        let s := { s with debouncedState := rawState }
        if s.debouncedState then
          -- Button pressed
          ({ s with pressedEdge := true, pressedTime := currentTime,
                    longPressTriggered := false, lastEvent := .PRESSED },
           [ButtonEvent.PRESSED])
        else
          -- Button released
          let s := { s with releasedEdge := true, releasedTime := currentTime,
                            lastEvent := .RELEASED }
          if ¬ s.longPressTriggered then
            let (s, ev) := detectEvents s currentTime
            (s, [ButtonEvent.RELEASED, ev])
          else
            (s, [ButtonEvent.RELEASED])
      else (s, [])
    else (s, [])
  -- Check for long press (while button is held)
  let (s, evs) :=
    if s.debouncedState ∧ ¬ s.longPressTriggered then
      if sub32 currentTime s.pressedTime ≥ s.longPressThreshold then
        ({ s with longPressTriggered := true, lastEvent := .LONG_PRESS },
         evs ++ [ButtonEvent.LONG_PRESS])
      else (s, evs)
    else (s, evs)
  -- Long press hold (continuous while held, no callback)
  let s :=
    if s.debouncedState ∧ s.longPressTriggered then
      { s with lastEvent := .LONG_PRESS_HOLD }
    else s
  ({ s with lastState := rawState }, evs)

/-- Run a sequence of `update` calls; each input is a pair of the `millis()`
time of the call and the raw (active-logic) input level sampled. -/
def run (s : State) : List (Nat × Bool) → State × List ButtonEvent
  | [] => (s, [])
  | (t, raw) :: rest =>
    let (s1, evs) := update s raw t
    let (s2, evs2) := run s1 rest
    (s2, evs ++ evs2)

/-- Input trace with two debounced presses and releases: the first release is
debounced at time 103 and the second at time `d`, so the two releases are
`d - 103` milliseconds apart.  Every raw change is held past the 50 ms
debounce interval and each press is released long before the long-press
threshold, so no long press is ever triggered. -/
def twoClickTrace (d : Nat) : List (Nat × Bool) :=
  [(0, true), (51, true), (52, false), (103, false),
   (150, true), (201, true), (202, false), (d, false)]

/-- State of the button after the first seven samples of `twoClickTrace`:
one debounced click has been emitted (at time 103) and the second press has
been debounced and released raw, awaiting the debounced release. -/
def midState : State :=
  { lastState := false
    debouncedState := true
    lastEvent := .NONE
    lastDebounceTime := 202
    pressedTime := 201
    releasedTime := 103
    lastClickTime := 103
    debounceDelay := 50
    longPressThreshold := 1000
    doubleClickWindow := 300
    pressedEdge := false
    releasedEdge := false
    longPressTriggered := false
    clickCount := 1 }

end Button

namespace RotaryEncoder

/-- State of the quadrature decoder part of class `RotaryEncoder` (the nested
push-button is modelled separately by `Button.State`).  `position` is the
`int32_t` detent counter, kept as an unbounded integer (each commit changes it
by at most 8, far from the 32-bit range in any realistic run). -/
structure State where
  stepsPerDetent : Nat
  position : Int
  lastEncoded : Nat
  stepAccumulator : Int
  accelerationEnabled : Bool
  accelerationThreshold : Nat
  lastRotationTime : Nat
  accelerationFactor : Nat
deriving DecidableEq, Repr

/-- State established by the `RotaryEncoder` constructor for a given
steps-per-detent configuration (default 4), before any rotation. -/
def initialState (stepsPerDetent : Nat) : State :=
  { stepsPerDetent := stepsPerDetent
    position := 0
    lastEncoded := 0
    stepAccumulator := 0
    accelerationEnabled := false
    accelerationThreshold := 50
    lastRotationTime := 0
    accelerationFactor := 1 }

/-- Quadrature transition table `STATE_TABLE[previous][current]` from
`RotaryEncoder::readEncoder`; entries for invalid or no-op transitions are
0. -/
def STATE_TABLE (prev cur : Nat) : Int :=
  match prev, cur with
  | 0, 1 => 1 | 0, 2 => -1
  | 1, 0 => -1 | 1, 3 => 1
  | 2, 0 => 1 | 2, 3 => -1
  | 3, 1 => -1 | 3, 2 => 1
  | _, _ => 0

/-- One call of `RotaryEncoder::readEncoder`, given the freshly sampled 2-bit
encoder state and the current `millis()` time.  Besides the new state it
returns the commit performed, if any: the clamped detent delta (±1) together
with the step size applied to the position at that commit. -/
def readEncoder (s : State) (encoded : Nat) (now : Nat) :
    State × Option (Int × Nat) :=
  if encoded = s.lastEncoded then (s, none)
  else
    let direction := STATE_TABLE s.lastEncoded encoded
    let s := { s with lastEncoded := encoded }
    if direction ≠ 0 then
      let s := { s with stepAccumulator := s.stepAccumulator + direction }
      if s.stepAccumulator.natAbs ≥ s.stepsPerDetent then
        -- Complete detents, remainder kept for the next cycle
        let detents := s.stepAccumulator.tdiv (s.stepsPerDetent : Int)
        let s := { s with
          stepAccumulator := s.stepAccumulator.tmod (s.stepsPerDetent : Int) }
        -- Only process exactly ONE detent at a time
        let detents : Int := if detents > 0 then 1 else if detents < 0 then -1 else 0
        -- Step size with optional acceleration
        let (s, stepSize) :=
          if s.accelerationEnabled then
            if sub32 now s.lastRotationTime < s.accelerationThreshold then
              let f := min (s.accelerationFactor + 1) 8
              ({ s with accelerationFactor := f, lastRotationTime := now }, f)
            else
              ({ s with accelerationFactor := 1, lastRotationTime := now }, 1)
          else (s, 1)
        ({ s with position := s.position + detents * stepSize },
         some (detents, stepSize))
      else (s, none)
    else (s, none)

/-- Run a sequence of `readEncoder` calls over sampled `(encodedState, time)`
pairs, collecting every commit. -/
def runEnc (s : State) : List (Nat × Nat) → State × List (Int × Nat)
  | [] => (s, [])
  | (enc, t) :: rest =>
    let (s1, c) := readEncoder s enc t
    let (s2, cs) := runEnc s1 rest
    (s2, c.toList ++ cs)

/-- Position contribution of one (optional) commit. -/
def commitDelta : Option (Int × Nat) → Int
  | none => 0
  | some c => c.1 * (c.2 : Int)

/-- Total position change contributed by a list of commits: each commit adds
its detent delta times the step multiplier in effect at that commit. -/
def commitSum (cs : List (Int × Nat)) : Int :=
  cs.foldr (fun c acc => c.1 * (c.2 : Int) + acc) 0

end RotaryEncoder

namespace AnimationEngine

/-- Animation states of the engine (`AnimationEngine.h`, `enum class
AnimState`); the registry is indexed by the ordinal of this enum, which is
always below the registry capacity of 8. -/
inductive AnimState where
  | IDLE | WINK | SURPRISED | DIZZY | SLEEPING | THINKING | SAD | CUSTOM
deriving DecidableEq, Repr

/-- An immutable registered animation (struct `Animation`).  Frame bitmaps,
dimensions and the debug name play no role in the playback logic and are
omitted; per-frame delays are carried directly in milliseconds (the source
stores float seconds and converts with `* 1000`). -/
structure Animation where
  frameCount : Nat
  fps : Nat
  loop : Bool
  frameDelays : Option (List Nat)
deriving DecidableEq, Repr

/-- Mutable playback state of class `AnimationEngine`.  The fixed animation
registry is passed separately as a function from states to registered
animations, since the engine only writes it during `init`. -/
structure EngineState where
  currentState : AnimState
  previousState : AnimState
  currentAnimation : Option Animation
  currentFrame : Nat
  lastFrameTime : Nat
  globalFPS : Nat
  playing : Bool
  paused : Bool
  autoReturnToIdle : Bool
  forceLoop : Bool
  continuousLoop : Bool
deriving DecidableEq, Repr

/-- The animation registry: `_animations[8]` indexed by the `AnimState`
ordinal, `nullptr` entries modelled as `none`. -/
def Registry := AnimState → Option Animation

/-- State established by the `AnimationEngine` constructor. -/
def initialState : EngineState :=
  { currentState := .IDLE
    previousState := .IDLE
    currentAnimation := none
    currentFrame := 0
    lastFrameTime := 0
    globalFPS := 0
    playing := false
    paused := false
    autoReturnToIdle := true
    forceLoop := false
    continuousLoop := false }

/-- The dereference `_currentAnimation->loop` performed by `play` while
`_playing` is true; reading through a null pointer is undefined behaviour in
the source, so the `none` case returns an arbitrary placeholder value (the
safety claim shows this case is unreachable). -/
def loopOfCurrent : Option Animation → Bool
  | some a => a.loop
  | none => false

/-- `AnimationEngine::play(state, priority, forceLoop)` at time `now`
(`millis()`), over the fixed registry `reg`. -/
def play (reg : Registry) (s : EngineState) (st : AnimState)
    (priority forceLoop : Bool) (now : Nat) : EngineState :=
  -- Check if already playing this animation
  if s.currentState = st ∧ s.playing ∧ ¬ priority then s
  -- Do not interrupt a non-looping animation unless forced
  else if s.playing ∧ loopOfCurrent s.currentAnimation = false ∧ ¬ priority then s
  else
    match reg st with
    | none => s
    | some anim =>
      { s with previousState := s.currentState
               currentState := st
               currentAnimation := some anim
               currentFrame := 0
               lastFrameTime := now
               playing := true
               paused := false
               forceLoop := forceLoop
               continuousLoop := forceLoop }

/-- `AnimationEngine::stop`. -/
def stop (s : EngineState) : EngineState :=
  { s with playing := false, currentFrame := 0 }

/-- `AnimationEngine::setPaused` at time `now`. -/
def setPaused (s : EngineState) (paused : Bool) (now : Nat) : EngineState :=
  if ¬ paused then { s with paused := paused, lastFrameTime := now }
  else { s with paused := paused }

/-- `AnimationEngine::advanceFrame`, with `AnimationEngine::onAnimationComplete`
inlined at its single call site.  `_currentFrame` and `frameCount` are
`uint8_t`, hence the mod-256 arithmetic. -/
def advanceFrame (s : EngineState) : EngineState :=
  match s.currentAnimation with
  | none => s
  | some anim =>
    let f := (s.currentFrame + 1) % 256
    if f ≥ anim.frameCount then
      if anim.loop ∨ s.continuousLoop then
        -- Loop back to start
        { s with currentFrame := 0 }
      else
        -- Animation finished: hold last frame, clear playing and loop flags
        { s with currentFrame := (anim.frameCount + 255) % 256
                 playing := false
                 continuousLoop := false
                 forceLoop := false }
    else { s with currentFrame := f }

/-- `AnimationEngine::getFrameDelay` in milliseconds. -/
def getFrameDelay (s : EngineState) : Nat :=
  match s.currentAnimation with
  | none => 0
  | some anim =>
    match anim.frameDelays with
    | some ds => ds.getD s.currentFrame 0
    | none =>
      let fps := if s.globalFPS > 0 then s.globalFPS else anim.fps
      1000 / fps

/-- `AnimationEngine::update` at time `now` (`millis()`). -/
def update (s : EngineState) (now : Nat) : EngineState :=
  if ¬ s.playing ∨ s.paused ∨ s.currentAnimation = none then s
  else if sub32 now s.lastFrameTime ≥ getFrameDelay s then
    advanceFrame { s with lastFrameTime := now }
  else s

/-- `AnimationEngine::showStaticFrame`. -/
def showStaticFrame (reg : Registry) (s : EngineState) (st : AnimState)
    (frameIndex : Nat) : EngineState :=
  match reg st with
  | none => s
  | some anim =>
    if frameIndex ≥ anim.frameCount then s
    else
      { s with currentState := st
               currentAnimation := some anim
               currentFrame := frameIndex
               playing := false
               paused := false
               continuousLoop := false
               forceLoop := false }

/-- `AnimationEngine::pauseOnFrame`. -/
def pauseOnFrame (s : EngineState) (frameIndex : Nat) : EngineState :=
  match s.currentAnimation with
  | none => s
  | some anim =>
    if frameIndex < anim.frameCount then
      { s with currentFrame := frameIndex, paused := true }
    else s

/-- `AnimationEngine::stopLoopingGracefully`. -/
def stopLoopingGracefully (s : EngineState) : EngineState :=
  if s.continuousLoop then { s with continuousLoop := false } else s

/-- `AnimationEngine::stopForcedLoop`. -/
def stopForcedLoop (s : EngineState) : EngineState :=
  if s.forceLoop then { s with forceLoop := false } else s

/-- `AnimationEngine::setGlobalFPS` (`constrain(fps, 1, 30)`). -/
def setGlobalFPS (s : EngineState) (fps : Nat) : EngineState :=
  { s with globalFPS := min (max fps 1) 30 }

/-- `AnimationEngine::setAutoReturnToIdle`. -/
def setAutoReturnToIdle (s : EngineState) (enabled : Bool) : EngineState :=
  { s with autoReturnToIdle := enabled }

/-- One public operation of the animation engine. -/
inductive Op where
  | play (st : AnimState) (priority forceLoop : Bool) (now : Nat)
  | stop
  | setPaused (paused : Bool) (now : Nat)
  | update (now : Nat)
  | showStaticFrame (st : AnimState) (frameIndex : Nat)
  | pauseOnFrame (frameIndex : Nat)
  | stopLoopingGracefully
  | stopForcedLoop
  | setGlobalFPS (fps : Nat)
  | setAutoReturnToIdle (enabled : Bool)

/-- Effect of a public operation on the engine state, over registry `reg`. -/
def applyOp (reg : Registry) (s : EngineState) : Op → EngineState
  | .play st priority forceLoop now => play reg s st priority forceLoop now
  | .stop => stop s
  | .setPaused p now => setPaused s p now
  | .update now => update s now
  | .showStaticFrame st fi => showStaticFrame reg s st fi
  | .pauseOnFrame fi => pauseOnFrame s fi
  | .stopLoopingGracefully => stopLoopingGracefully s
  | .stopForcedLoop => stopForcedLoop s
  | .setGlobalFPS fps => setGlobalFPS s fps
  | .setAutoReturnToIdle b => setAutoReturnToIdle s b

/-- States of the engine reachable from the constructor state through the
public operations, for a fixed registry. -/
inductive Reachable (reg : Registry) : EngineState → Prop
  | init : Reachable reg initialState
  | step {s : EngineState} (op : Op) :
      Reachable reg s → Reachable reg (applyOp reg s op)

/-- A concrete two-frame animation whose own loop flag is set (like the
built-in looping idle/dizzy animations). -/
def loopingAnim : Animation :=
  { frameCount := 2, fps := 10, loop := true, frameDelays := none }

/-- A registry holding `loopingAnim` in the DIZZY slot. -/
def loopingReg : Registry :=
  fun st => if st = .DIZZY then some loopingAnim else none

/-- A concrete three-frame one-shot animation (loop flag clear, like the
built-in wink/surprised reaction animations). -/
def oneShotAnim : Animation :=
  { frameCount := 3, fps := 10, loop := false, frameDelays := none }

/-- A registry holding `oneShotAnim` in the WINK slot. -/
def oneShotReg : Registry :=
  fun st => if st = .WINK then some oneShotAnim else none

/-- A well-formed registry entry: a registered animation has at least one
frame and its `uint8_t` frame count is at most 255. -/
def WFRegistry (reg : Registry) : Prop :=
  ∀ st a, reg st = some a → 1 ≤ a.frameCount ∧ a.frameCount ≤ 255

end AnimationEngine

namespace MenuSystem

/-- Item kinds (`MenuItem.h`, `enum class MenuItemType`). -/
inductive MenuItemType where
  | ACTION | SUBMENU | VALUE | TOGGLE | INFO
deriving DecidableEq, Repr

/-- A menu tree node (class `MenuItem`).  Children are carried by value; the
display text, IDs and callbacks play no role in navigation and are omitted.
`execute` on a leaf mutates at most the value of that leaf, never the tree
shape, so navigation claims are unaffected by modelling it as a no-op. -/
inductive MenuItem where
  | node (typ : MenuItemType) (enabled : Bool) (value vmin vmax : Int)
         (children : List MenuItem)

/-- `MenuItem::getChildCount`. -/
def MenuItem.getChildCount : MenuItem → Nat
  | .node _ _ _ _ _ cs => cs.length

/-- `MenuItem::hasChildren` (`_childCount > 0`). -/
def MenuItem.hasChildren (m : MenuItem) : Bool :=
  m.getChildCount > 0

/-- `MenuItem::isEnabled`. -/
def MenuItem.isEnabled : MenuItem → Bool
  | .node _ e _ _ _ _ => e

/-- `MenuItem::getType`. -/
def MenuItem.getType : MenuItem → MenuItemType
  | .node t _ _ _ _ _ => t

/-- `MenuItem::getChildren` as a list. -/
def MenuItem.children : MenuItem → List MenuItem
  | .node _ _ _ _ _ cs => cs

/-- Navigation directions (`MenuSystem.h`, `enum class MenuNav`). -/
inductive MenuNav where
  | UP | DOWN | SELECT | BACK
deriving DecidableEq, Repr

/-- Navigation state of class `MenuSystem`.  `menuStack` models the fixed
`_menuStack[10]` array: `stackWrite` writes at index `_depth` exactly as the
array assignment does. -/
structure NavState where
  rootItem : MenuItem
  currentMenu : MenuItem
  menuStack : List MenuItem
  depth : Nat
  selectedIndex : Nat
  scrollOffset : Nat
  maxVisibleItems : Nat
  editMode : Bool

/-- `MAX_MENU_DEPTH` from `MenuSystem.cpp`. -/
def MAX_MENU_DEPTH : Nat := 10

/-- Array write `_menuStack[i] = v` on the list model (the source only ever
writes at `i = _depth ≤ 10`, so positions beyond the current length are an
append). -/
def stackWrite (st : List MenuItem) (i : Nat) (v : MenuItem) : List MenuItem :=
  if i < st.length then st.set i v else st ++ [v]

/-- `MenuSystem::init`: the display height determines the viewport capacity
(`(height - TITLE_HEIGHT) / ITEM_HEIGHT` with `TITLE_HEIGHT = 10` and
`ITEM_HEIGHT = 12`). -/
def init (rootItem : MenuItem) (displayHeight : Nat) : NavState :=
  { rootItem := rootItem
    currentMenu := rootItem
    menuStack := []
    depth := 0
    selectedIndex := 0
    scrollOffset := 0
    maxVisibleItems := (displayHeight - 10) / 12
    editMode := false }

/-- `MenuSystem::getCurrentMenuItemCount`. -/
def getCurrentMenuItemCount (s : NavState) : Nat :=
  s.currentMenu.getChildCount

/-- `MenuSystem::getCurrentItem` (`nullptr` when the selection is out of
range). -/
def getCurrentItem (s : NavState) : Option MenuItem :=
  if s.selectedIndex < getCurrentMenuItemCount s then
    s.currentMenu.children.get? s.selectedIndex
  else none

/-- `MenuSystem::updateScrollOffset`: clamp the scroll offset so the selection
stays inside the visible window. -/
def updateScrollOffset (s : NavState) : NavState :=
  if s.selectedIndex < s.scrollOffset then
    { s with scrollOffset := s.selectedIndex }
  else if s.selectedIndex ≥ s.scrollOffset + s.maxVisibleItems then
    { s with scrollOffset := s.selectedIndex - s.maxVisibleItems + 1 }
  else s

/-- `MenuSystem::enterSubmenu`. -/
def enterSubmenu (s : NavState) : NavState :=
  match getCurrentItem s with
  | none => s
  | some selected =>
    if selected.hasChildren then
      let s :=
        if s.depth < MAX_MENU_DEPTH then
          { s with menuStack := stackWrite s.menuStack s.depth s.currentMenu
                   depth := s.depth + 1 }
        else s
      { s with currentMenu := selected, selectedIndex := 0, scrollOffset := 0 }
    else s

/-- `MenuSystem::exitSubmenu`. -/
def exitSubmenu (s : NavState) : NavState :=
  if s.depth > 0 then
    { s with depth := s.depth - 1
             currentMenu := (s.menuStack.get? (s.depth - 1)).getD s.rootItem
             selectedIndex := 0
             scrollOffset := 0 }
  else s

/-- `MenuSystem::executeCurrentItem`.  Leaf execution (`MenuItem::execute`)
only fires callbacks or flips the value of the leaf itself, which never
changes any navigation field or child list, and is modelled as a no-op. -/
def executeCurrentItem (s : NavState) : NavState :=
  match getCurrentItem s with
  | none => s
  | some selected =>
    if ¬ selected.isEnabled then s
    else if selected.hasChildren then enterSubmenu s
    else s

/-- `MenuSystem::navigate`.  The state callback only notifies listeners and
does not touch navigation state. -/
def navigate (s : NavState) (direction : MenuNav) : NavState :=
  let itemCount := getCurrentMenuItemCount s
  if itemCount = 0 then s
  else
    match direction with
    | .UP =>
      if s.selectedIndex > 0 then
        updateScrollOffset { s with selectedIndex := s.selectedIndex - 1 }
      else s
    | .DOWN =>
      if s.selectedIndex < itemCount - 1 then
        updateScrollOffset { s with selectedIndex := s.selectedIndex + 1 }
      else s
    | .SELECT => executeCurrentItem s
    | .BACK => exitSubmenu s

/-- `MenuSystem::isAtRoot` (`_depth == 0`). -/
def isAtRoot (s : NavState) : Bool :=
  s.depth = 0

/-- Modelled from the spec: `MenuSystem::setEditMode` is called from
`main.cpp` but its definition is not among the provided sources; per the
specification of edit-mode toggling (section 4.4) it records the boolean
"editing this item" flag, which only affects drawing. -/
def setEditMode (s : NavState) (editing : Bool) : NavState :=
  { s with editMode := editing }

/-- `MenuSystem::returnToRoot`. -/
def returnToRoot (s : NavState) : NavState :=
  { s with currentMenu := s.rootItem, depth := 0,
           selectedIndex := 0, scrollOffset := 0 }

/-- Apply a sequence of `navigate` calls. -/
def runNav (s : NavState) : List MenuNav → NavState
  | [] => s
  | d :: ds => runNav (navigate s d) ds

end MenuSystem

namespace MainApp

/-- Top-level application modes (`main.cpp`, `enum class AppMode`). -/
inductive AppMode where
  | ANIMATIONS | MENU | SENSORS | WIFI_SETUP | WIFI_INFO | WEATHER_VIEW
  | WEATHER_ABOUT | WEATHER_PRIVACY | CLOCK_VIEW | POMODORO_VIEW
deriving DecidableEq, Repr

/-- Pomodoro timer states (`main.cpp`, `enum class PomodoroState`). -/
inductive PomodoroState where
  | IDLE | WORK_RUNNING | WORK_PAUSED | BREAK_RUNNING | BREAK_PAUSED
deriving DecidableEq, Repr

/-- `POMODORO_WORK_MS` from `main.cpp`. -/
def POMODORO_WORK_MS : Nat := 25 * 60 * 1000

/-- The file-scope application state touched by `onButtonEvent` in
`main.cpp`. -/
structure World where
  currentMode : AppMode
  menu : MenuSystem.NavState
  encoderEditMode : Bool
  pomodoroState : PomodoroState
  pomodoroTargetMs : Nat
  pomodoroPausedRemaining : Nat
  pomodoroCount : Nat
  lastMenuActivity : Nat

/-- `resetMenuTimeout` from `main.cpp` (`lastMenuActivity = millis()`). -/
def resetMenuTimeout (w : World) (now : Nat) : World :=
  { w with lastMenuActivity := now }

/-- Whether the currently selected menu item is a VALUE or TOGGLE item (the
condition of the CLICK branch of `onButtonEvent` in MENU mode). -/
def selectedIsAdjustable (menu : MenuSystem.NavState) : Bool :=
  match MenuSystem.getCurrentItem menu with
  | some item =>
    item.getType = MenuSystem.MenuItemType.VALUE ∨
      item.getType = MenuSystem.MenuItemType.TOGGLE
  | none => false

/-- `onButtonEvent` from `main.cpp` at time `now` (`millis()`).  Display
drawing and serial logging have no effect on this state and are omitted. -/
def onButtonEvent (w : World) (event : Button.ButtonEvent) (now : Nat) :
    World :=
  if w.currentMode = .ANIMATIONS then
    if event = .CLICK ∨ event = .LONG_PRESS then
      resetMenuTimeout { w with currentMode := .MENU } now
    else w
  else if w.currentMode = .MENU then
    let w := resetMenuTimeout w now
    match event with
    | .CLICK =>
      if selectedIsAdjustable w.menu then
        let e := ¬ w.encoderEditMode
        { w with encoderEditMode := e
                 menu := MenuSystem.setEditMode w.menu e }
      else
        { w with menu := MenuSystem.navigate w.menu .SELECT }
    | .LONG_PRESS =>
      if MenuSystem.isAtRoot w.menu then
        { w with currentMode := .ANIMATIONS
                 encoderEditMode := false
                 menu := MenuSystem.setEditMode w.menu false }
      else
        { w with menu := MenuSystem.navigate w.menu .BACK }
    | _ => w
  else if w.currentMode = .POMODORO_VIEW then
    if event = .CLICK then
      match w.pomodoroState with
      | .IDLE =>
        { w with pomodoroState := .WORK_RUNNING
                 pomodoroTargetMs := (now + POMODORO_WORK_MS) % MOD32 }
      | .WORK_RUNNING =>
        { w with pomodoroPausedRemaining := sub32 w.pomodoroTargetMs now
                 pomodoroState := .WORK_PAUSED }
      | .WORK_PAUSED =>
        { w with pomodoroTargetMs := (now + w.pomodoroPausedRemaining) % MOD32
                 pomodoroState := .WORK_RUNNING }
      | .BREAK_RUNNING =>
        { w with pomodoroPausedRemaining := sub32 w.pomodoroTargetMs now
                 pomodoroState := .BREAK_PAUSED }
      | .BREAK_PAUSED =>
        { w with pomodoroTargetMs := (now + w.pomodoroPausedRemaining) % MOD32
                 pomodoroState := .BREAK_RUNNING }
    else if event = .LONG_PRESS then
      resetMenuTimeout
        { w with pomodoroState := .IDLE, pomodoroTargetMs := 0,
                 pomodoroPausedRemaining := 0, pomodoroCount := 0,
                 currentMode := .MENU } now
    else w
  else
    if event = .LONG_PRESS then
      resetMenuTimeout
        { w with currentMode := .MENU
                 encoderEditMode := false
                 menu := MenuSystem.setEditMode w.menu false } now
    else w

end MainApp

namespace WeatherService

/-- Service states (`WeatherService.h`, `enum class WeatherState`). -/
inductive WeatherState where
  | IDLE | FETCHING_LOCATION | FETCHING_WEATHER | CACHED | STALE | ERROR
deriving DecidableEq, Repr

/-- Error codes (`WeatherService.h`, `enum class WeatherError`). -/
inductive WeatherError where
  | NONE | WIFI_NOT_CONNECTED | HTTP_TIMEOUT | HTTP_CONNECTION_FAILED
  | HTTP_ERROR_400 | HTTP_ERROR_403 | HTTP_ERROR_404 | HTTP_ERROR_429
  | HTTP_ERROR_500 | HTTP_ERROR_OTHER | JSON_PARSE_FAILED | INVALID_RESPONSE
  | LOCATION_FAILED | WEATHER_FAILED
deriving DecidableEq, Repr

/-- `LOCATION_CACHE_SECS`: 7 days. -/
def LOCATION_CACHE_SECS : Nat := 7 * 24 * 60 * 60

/-- `WEATHER_CACHE_SECS`: 4 hours. -/
def WEATHER_CACHE_SECS : Nat := 4 * 60 * 60

/-- `MIN_UPDATE_INTERVAL_SECS`: 5 minutes. -/
def MIN_UPDATE_INTERVAL_SECS : Nat := 5 * 60

/-- `RETRY_DELAY_SECS`: 30 seconds. -/
def RETRY_DELAY_SECS : Nat := 30

/-- `DEFAULT_UPDATE_INTERVAL`: 4 hours. -/
def DEFAULT_UPDATE_INTERVAL : Nat := 4 * 60 * 60

/-- `WIFI_STABILIZE_MS`: 5 seconds. -/
def WIFI_STABILIZE_MS : Nat := 5000

/-- `MAX_RETRIES`. -/
def MAX_RETRIES : Nat := 3

/-- State of class `WeatherService` relevant to scheduling, caching and the
background fetch.  The cached location and forecast records are reduced to
their validity flags (the payload fields are opaque to every claim);
timestamps are in seconds (`millis()/1000`) except `wifiConnectedTimeMs`. -/
structure ServiceState where
  state : WeatherState
  enabled : Bool
  updateIntervalSecs : Nat
  locationValid : Bool
  forecastValid : Bool
  locationFetchTime : Nat
  weatherFetchTime : Nat
  lastAttemptTime : Nat
  nextUpdateTime : Nat
  wifiConnectedTimeMs : Nat
  retryCount : Nat
  wasConnected : Bool
  lastError : WeatherError
  fetchInProgress : Bool
  fetchNeedsLocation : Bool
deriving DecidableEq, Repr

/-- `WeatherService::isLocationCacheValid` at time `now = millis()/1000`. -/
def isLocationCacheValid (s : ServiceState) (now : Nat) : Bool :=
  if ¬ s.locationValid ∨ s.locationFetchTime = 0 then false
  else sub32 now s.locationFetchTime < LOCATION_CACHE_SECS

/-- `WeatherService::isWeatherCacheValid` at time `now = millis()/1000`. -/
def isWeatherCacheValid (s : ServiceState) (now : Nat) : Bool :=
  if ¬ s.forecastValid ∨ s.weatherFetchTime = 0 then false
  else sub32 now s.weatherFetchTime < WEATHER_CACHE_SECS

/-- `WeatherService::startBackgroundFetch`.  `taskCreateOk` abstracts the
`xTaskCreate` result; the second component reports whether a worker task was
actually spawned. -/
def startBackgroundFetch (s : ServiceState) (includeLocation taskCreateOk : Bool) :
    ServiceState × Bool :=
  if s.fetchInProgress then (s, false)
  else
    let s := { s with fetchInProgress := true
                      fetchNeedsLocation := includeLocation
                      state := if includeLocation then .FETCHING_LOCATION
                               else .FETCHING_WEATHER }
    if taskCreateOk then (s, true)
    else ({ s with fetchInProgress := false, state := .ERROR,
                   lastError := .HTTP_CONNECTION_FAILED }, false)

/-- `WeatherService::forceUpdate`.  Returns the boolean result, the new state
and whether a worker task was spawned. -/
def forceUpdate (s : ServiceState) (wifiConnected taskCreateOk : Bool) :
    Bool × ServiceState × Bool :=
  if s.fetchInProgress then (false, s, false)
  else if ¬ wifiConnected then (false, s, false)
  else
    let (s1, started) := startBackgroundFetch s true taskCreateOk
    (true, s1, started)

/-- `WeatherService::update` at time `nowMs = millis()`.  The second component
reports whether a worker task was spawned. -/
def update (s : ServiceState) (nowMs : Nat) (isConnected taskCreateOk : Bool) :
    ServiceState × Bool :=
  if ¬ s.enabled then (s, false)
  else if s.fetchInProgress then (s, false)
  else
    let now := nowMs / 1000
    if isConnected ∧ ¬ s.wasConnected then
      ({ s with wifiConnectedTimeMs := nowMs, wasConnected := true }, false)
    else if ¬ isConnected then
      ({ s with wasConnected := false, wifiConnectedTimeMs := 0 }, false)
    else if s.wifiConnectedTimeMs > 0 ∧
            sub32 nowMs s.wifiConnectedTimeMs < WIFI_STABILIZE_MS then
      (s, false)
    else if now < s.nextUpdateTime then (s, false)
    else
      let needsLocation := ¬ isLocationCacheValid s now
      let needsWeather := ¬ isWeatherCacheValid s now
      if ¬ needsLocation ∧ ¬ needsWeather then
        ({ s with nextUpdateTime := (now + 60) % MOD32 }, false)
      else if sub32 now s.lastAttemptTime < MIN_UPDATE_INTERVAL_SECS ∧
              s.lastAttemptTime ≠ 0 then
        ({ s with nextUpdateTime :=
                    (s.lastAttemptTime + MIN_UPDATE_INTERVAL_SECS) % MOD32 },
         false)
      else
        startBackgroundFetch { s with lastAttemptTime := now }
          needsLocation taskCreateOk

/-- The retry bookkeeping shared by both failure branches of
`WeatherService::fetchTask` (`retryCount_++` followed by the ceiling check);
`lastError` is already set by the failed fetch on the incoming state.
`retryCount` is a `uint8_t`. -/
def failRetry (s : ServiceState) (now : Nat) : ServiceState :=
  let rc := (s.retryCount + 1) % 256
  if rc ≥ MAX_RETRIES then
    { s with retryCount := 0, state := .ERROR,
             nextUpdateTime := (now + s.updateIntervalSecs) % MOD32 }
  else
    { s with retryCount := rc,
             nextUpdateTime := (now + RETRY_DELAY_SECS) % MOD32 }

/-- Outcome of one collaborator fetch (`GeoLocationClient::fetchLocation` or
`WeatherClient::fetchForecast` together with its surrounding WiFi check):
`none` is success, `some e` is failure with the error code the fetch helper
records. -/
def FetchOutcome := Option WeatherError

/-- `WeatherService::fetchLocation` given the collaborator outcome: on success
the location record becomes valid with fetch time `now` and is persisted. -/
def fetchLocation (s : ServiceState) (now : Nat) (outcome : FetchOutcome) :
    ServiceState × Bool :=
  match outcome with
  | some e => ({ s with lastError := e }, false)
  | none =>
    ({ s with lastError := .NONE, locationValid := true,
              locationFetchTime := now }, true)

/-- `WeatherService::fetchWeather` given the collaborator outcome; fails
immediately with `LOCATION_FAILED` when no valid location is cached. -/
def fetchWeather (s : ServiceState) (now : Nat) (outcome : FetchOutcome) :
    ServiceState × Bool :=
  if ¬ s.locationValid then ({ s with lastError := .LOCATION_FAILED }, false)
  else
    match outcome with
    | some e => ({ s with lastError := e }, false)
    | none =>
      ({ s with lastError := .NONE, forecastValid := true,
                weatherFetchTime := now }, true)

/-- `WeatherService::fetchTask` (the body of the background worker task),
with the two collaborator outcomes as parameters and `now = millis()/1000`
sampled at task start. -/
def fetchTask (s : ServiceState) (now : Nat)
    (locOutcome wOutcome : FetchOutcome) : ServiceState :=
  -- Fetch location if needed
  let (s, success) :=
    if s.fetchNeedsLocation then
      let (s1, ok) := fetchLocation s now locOutcome
      if ¬ ok then (failRetry s1 now, false)
      else ({ s1 with retryCount := 0 }, true)
    else (s, true)
  -- Fetch weather if location succeeded or was not needed
  let (s, success) :=
    if success then
      let s1 := { s with state := WeatherState.FETCHING_WEATHER }
      let (s2, ok) := fetchWeather s1 now wOutcome
      if ¬ ok then (failRetry s2 now, false)
      else ({ s2 with retryCount := 0 }, true)
    else (s, false)
  -- Update state based on result
  let s :=
    if success then
      { s with state := WeatherState.CACHED,
               nextUpdateTime := (now + s.updateIntervalSecs) % MOD32 }
    else s
  { s with fetchInProgress := false }

/-- The service state paired with the number of worker tasks currently in
flight (a ghost counter: `xTaskCreate` increments it, task exit decrements
it). -/
structure Sys where
  svc : ServiceState
  tasksInFlight : Nat

/-- Events of the weather service seen from the main loop and the worker:
an `update` tick, a `forceUpdate` call, or the completion of the worker task
body.  A completion requires a task to exist. -/
inductive SysStep : Sys → Sys → Prop
  | tick (sys : Sys) (nowMs : Nat) (isConnected taskCreateOk : Bool) :
      SysStep sys
        ⟨(update sys.svc nowMs isConnected taskCreateOk).1,
         sys.tasksInFlight +
           (if (update sys.svc nowMs isConnected taskCreateOk).2 then 1 else 0)⟩
  | force (sys : Sys) (wifiConnected taskCreateOk : Bool) :
      SysStep sys
        ⟨(forceUpdate sys.svc wifiConnected taskCreateOk).2.1,
         sys.tasksInFlight +
           (if (forceUpdate sys.svc wifiConnected taskCreateOk).2.2 then 1
            else 0)⟩
  | complete (sys : Sys) (now : Nat) (locOutcome wOutcome : FetchOutcome) :
      1 ≤ sys.tasksInFlight →
      SysStep sys
        ⟨fetchTask sys.svc now locOutcome wOutcome, sys.tasksInFlight - 1⟩

/-- State established by the `WeatherService` constructor (before `init()`
loads NVS content). -/
def initialServiceState : ServiceState :=
  { state := .IDLE
    enabled := false
    updateIntervalSecs := DEFAULT_UPDATE_INTERVAL
    locationValid := false
    forecastValid := false
    locationFetchTime := 0
    weatherFetchTime := 0
    lastAttemptTime := 0
    nextUpdateTime := 0
    wifiConnectedTimeMs := 0
    retryCount := 0
    wasConnected := false
    lastError := .NONE
    fetchInProgress := false
    fetchNeedsLocation := false }

/-- A service state as produced by `loadCacheFromNVS` when the stored
latitude/longitude keys exist but the `loc_time` key is absent: the location
record is marked valid while `locationFetchTime` keeps its default 0.  Used
to separate the TTL predicate of the specification from the implemented
one. -/
def zeroStampState : ServiceState :=
  { state := .STALE
    enabled := true
    updateIntervalSecs := DEFAULT_UPDATE_INTERVAL
    locationValid := true
    forecastValid := false
    locationFetchTime := 0
    weatherFetchTime := 0
    lastAttemptTime := 0
    nextUpdateTime := 5
    wifiConnectedTimeMs := 0
    retryCount := 0
    wasConnected := false
    lastError := .NONE
    fetchInProgress := false
    fetchNeedsLocation := false }

/-- Coupling between the `fetchInProgress_` guard and the ghost count of
worker tasks in flight: the flag is set exactly while one task exists. -/
def InFlightInv (sys : Sys) : Prop :=
  (sys.svc.fetchInProgress = true → sys.tasksInFlight = 1) ∧
  (sys.svc.fetchInProgress = false → sys.tasksInFlight = 0)

/-- System states reachable from any boot state: after the constructor and
`init()` (which loads arbitrary NVS content) no fetch is in progress and no
worker task exists. -/
inductive SysReachable : Sys → Prop
  | boot (s : ServiceState) :
      s.fetchInProgress = false → SysReachable ⟨s, 0⟩
  | step {a b : Sys} : SysReachable a → SysStep a b → SysReachable b

end WeatherService

/-!
## Theorems

General facts about `sub32`, followed by the helper lemmas and the claim
theorems for each component.
-/

theorem sub32_self (a : Nat) : sub32 a a = 0 := by
  unfold sub32 MOD32
  omega

theorem sub32_of_le {a b : Nat} (hba : b ≤ a) (ha : a < MOD32) :
    sub32 a b = a - b := by
  unfold sub32 MOD32 at *
  omega

theorem Button.run_nil (s : Button.State) : Button.run s [] = (s, []) := rfl

theorem Button.run_cons (s : Button.State) (t : Nat) (raw : Bool)
    (rest : List (Nat × Bool)) :
    Button.run s ((t, raw) :: rest) =
      ((Button.run (Button.update s raw t).1 rest).1,
       (Button.update s raw t).2 ++
         (Button.run (Button.update s raw t).1 rest).2) := by
  rcases h : Button.update s raw t with ⟨s1, evs⟩
  simp [Button.run, h]

theorem Button.run_append (s : Button.State) (xs ys : List (Nat × Bool)) :
    Button.run s (xs ++ ys) =
      ((Button.run (Button.run s xs).1 ys).1,
       (Button.run s xs).2 ++ (Button.run (Button.run s xs).1 ys).2) := by
  induction xs generalizing s with
  | nil => simp [Button.run]
  | cons x rest ih =>
    obtain ⟨t, raw⟩ := x
    simp [Button.run, ih]

/-- Characterization of one `Button::update` call that debounces a release
while a single click is pending and the release falls inside the double-click
window: a `DOUBLE_CLICK` is emitted right after the `RELEASED` edge. -/
theorem Button.update_release_double (s : Button.State) (t : Nat)
    (hlast : s.lastState = false) (hdeb : s.debouncedState = true)
    (htimer : sub32 t s.lastDebounceTime > s.debounceDelay)
    (hlp : s.longPressTriggered = false)
    (hwin : sub32 t s.lastClickTime < s.doubleClickWindow)
    (hcc : s.clickCount = 1) :
    Button.update s false t =
      ({ s with
          pressedEdge := false
          releasedEdge := true
          debouncedState := false
          releasedTime := t
          lastEvent := .DOUBLE_CLICK
          clickCount := 0
          lastState := false }, [.RELEASED, .DOUBLE_CLICK]) := by
  simp [Button.update, Button.detectEvents, hlast, hdeb, htimer, hlp, hwin, hcc]

/-- Characterization of one `Button::update` call that debounces a release
outside the double-click window (or with no pending click): a `CLICK` is
emitted right after the `RELEASED` edge and a new click window opens. -/
theorem Button.update_release_single (s : Button.State) (t : Nat)
    (hlast : s.lastState = false) (hdeb : s.debouncedState = true)
    (htimer : sub32 t s.lastDebounceTime > s.debounceDelay)
    (hlp : s.longPressTriggered = false)
    (hwin : ¬ (sub32 t s.lastClickTime < s.doubleClickWindow ∧
               s.clickCount = 1)) :
    Button.update s false t =
      ({ s with
          pressedEdge := false
          releasedEdge := true
          debouncedState := false
          releasedTime := t
          lastEvent := .CLICK
          clickCount := 1
          lastClickTime := t
          lastState := false }, [.RELEASED, .CLICK]) := by
  simp [Button.update, Button.detectEvents, hlast, hdeb, htimer, hlp, hwin]

/-- Claim C1, counterexample.  On the trace whose two debounced releases are
157 ms apart (inside the 300 ms double-click window) and which triggers no
long press, the button does NOT emit zero `CLICK` events as the claim states:
the first release emits a `CLICK` immediately (it is later followed by the
`DOUBLE_CLICK` on the second release). -/
theorem c1_counterexample :
    (Button.run Button.initialState (Button.twoClickTrace 260)).2.count
        .RELEASED = 2 ∧
    (Button.run Button.initialState (Button.twoClickTrace 260)).2.count
        .LONG_PRESS = 0 ∧
    260 - 103 < 300 ∧
    ¬ ((Button.run Button.initialState (Button.twoClickTrace 260)).2.count
        .CLICK = 0 ∧
       (Button.run Button.initialState (Button.twoClickTrace 260)).2.count
        .DOUBLE_CLICK = 1) := by decide

/-- Claim C1, amended.  For the debounced two-release trace with release gap
`d - 103`: if the gap is inside the 300 ms double-click window the button
emits exactly one `CLICK` (immediately at the first release) followed by
exactly one `DOUBLE_CLICK` (at the second release); if the gap is at least
the window it emits two `CLICK` events and no `DOUBLE_CLICK`. -/
theorem c1_two_release_classification (d : Nat) (h1 : 253 ≤ d)
    (h2 : d < MOD32) :
    (Button.run Button.initialState (Button.twoClickTrace d)).2 =
      [.PRESSED, .RELEASED, .CLICK, .PRESSED, .RELEASED,
       if d - 103 < 300 then .DOUBLE_CLICK else .CLICK] := by
  have hfirst : Button.run Button.initialState
      [(0, true), (51, true), (52, false), (103, false),
       (150, true), (201, true), (202, false)] =
      (Button.midState, [.PRESSED, .RELEASED, .CLICK, .PRESSED]) := by decide
  have hsplit : Button.twoClickTrace d =
      [(0, true), (51, true), (52, false), (103, false),
       (150, true), (201, true), (202, false)] ++ [(d, false)] := rfl
  have htimer : sub32 d Button.midState.lastDebounceTime >
      Button.midState.debounceDelay := by
    show sub32 d 202 > 50
    rw [sub32_of_le (by omega) h2]
    omega
  rw [hsplit, Button.run_append, hfirst, Button.run_cons]
  rcases Nat.lt_or_ge d 403 with hd | hd
  · have hwin : sub32 d Button.midState.lastClickTime <
        Button.midState.doubleClickWindow := by
      show sub32 d 103 < 300
      rw [sub32_of_le (by omega) h2]
      omega
    rw [Button.update_release_double Button.midState d rfl rfl htimer rfl hwin
        rfl]
    have hlt : d - 103 < 300 := by omega
    simp [Button.run_nil, hlt]
  · have hwin : ¬ (sub32 d Button.midState.lastClickTime <
        Button.midState.doubleClickWindow ∧ Button.midState.clickCount = 1) := by
      rw [show Button.midState.lastClickTime = 103 from rfl,
          show Button.midState.doubleClickWindow = 300 from rfl,
          sub32_of_le (by omega) h2]
      omega
    rw [Button.update_release_single Button.midState d rfl rfl htimer rfl hwin]
    have hlt : ¬ (d - 103 < 300) := by omega
    simp [Button.run_nil, hlt]

/-- Witness for the amended claim C1 at the concrete release gaps 157 ms
(double-click) and 397 ms (two clicks). -/
theorem c1_two_release_classification_witness :
    (Button.run Button.initialState (Button.twoClickTrace 260)).2 =
      [.PRESSED, .RELEASED, .CLICK, .PRESSED, .RELEASED, .DOUBLE_CLICK] ∧
    (Button.run Button.initialState (Button.twoClickTrace 500)).2 =
      [.PRESSED, .RELEASED, .CLICK, .PRESSED, .RELEASED, .CLICK] := by
  constructor
  · have h := c1_two_release_classification 260 (by decide) (by decide)
    simpa using h
  · have h := c1_two_release_classification 500 (by decide) (by decide)
    simpa using h

/-- Claim C2, counterexample.  In the state loaded from NVS content whose
`loc_time` key was missing, the location record is valid and its age
`now - locationFetchTime = 100` is far below the 7-day TTL, yet
`isLocationCacheValid` returns false: the implementation additionally
requires a non-zero fetch timestamp, which the claimed equivalence omits. -/
theorem c2_counterexample :
    WeatherService.zeroStampState.locationValid = true ∧
    sub32 100 WeatherService.zeroStampState.locationFetchTime <
      WeatherService.LOCATION_CACHE_SECS ∧
    WeatherService.isLocationCacheValid WeatherService.zeroStampState 100 =
      false := by decide

/-- Claim C2, amended.  For every service state and time, the location cache
is valid iff the record is valid, its fetch timestamp is non-zero, and its age
is below the 7-day TTL; analogously for the weather cache with the 4-hour
TTL.  Consequently both predicates become false by pure passage of time once
the TTL elapses, with no invalidation call: the last two conjuncts make this
explicit. -/
theorem c2_cache_validity (s : WeatherService.ServiceState) (now : Nat) :
    (WeatherService.isLocationCacheValid s now = true ↔
      s.locationValid = true ∧ s.locationFetchTime ≠ 0 ∧
      sub32 now s.locationFetchTime < WeatherService.LOCATION_CACHE_SECS) ∧
    (WeatherService.isWeatherCacheValid s now = true ↔
      s.forecastValid = true ∧ s.weatherFetchTime ≠ 0 ∧
      sub32 now s.weatherFetchTime < WeatherService.WEATHER_CACHE_SECS) ∧
    (WeatherService.LOCATION_CACHE_SECS ≤ sub32 now s.locationFetchTime →
      WeatherService.isLocationCacheValid s now = false) ∧
    (WeatherService.WEATHER_CACHE_SECS ≤ sub32 now s.weatherFetchTime →
      WeatherService.isWeatherCacheValid s now = false) := by
  refine ⟨?_, ?_, ?_, ?_⟩
  · simp only [WeatherService.isLocationCacheValid]
    split_ifs with h
    · simp only [Bool.false_eq_true, false_iff]
      rintro ⟨h1, h2, h3⟩
      tauto
    · simp only [decide_eq_true_eq]
      push_neg at h
      tauto
  · simp only [WeatherService.isWeatherCacheValid]
    split_ifs with h
    · simp only [Bool.false_eq_true, false_iff]
      rintro ⟨h1, h2, h3⟩
      tauto
    · simp only [decide_eq_true_eq]
      push_neg at h
      tauto
  · intro hle
    simp only [WeatherService.isLocationCacheValid]
    split_ifs with h
    · rfl
    · simp only [decide_eq_false_iff_not]
      omega
  · intro hle
    simp only [WeatherService.isWeatherCacheValid]
    split_ifs with h
    · rfl
    · simp only [decide_eq_false_iff_not]
      omega

/-- Claim C5.  Starting from a zero retry count, three consecutive completely
failing fetch runs (location stage fails each time) behave as specified: the
first two schedule only the short 30-second retry delay and leave the service
state unchanged, while the third transitions to Error, schedules the next
attempt a full update interval away, and resets the retry counter. -/
theorem c5_retry_ceiling (s : WeatherService.ServiceState)
    (now1 now2 now3 : Nat) (e1 e2 e3 : WeatherService.WeatherError)
    (hrc : s.retryCount = 0) (hneed : s.fetchNeedsLocation = true) :
    (WeatherService.fetchTask s now1 (some e1) none).retryCount = 1 ∧
    (WeatherService.fetchTask s now1 (some e1) none).nextUpdateTime =
      (now1 + WeatherService.RETRY_DELAY_SECS) % MOD32 ∧
    (WeatherService.fetchTask s now1 (some e1) none).state = s.state ∧
    (WeatherService.fetchTask (WeatherService.fetchTask s now1 (some e1) none)
        now2 (some e2) none).retryCount = 2 ∧
    (WeatherService.fetchTask (WeatherService.fetchTask s now1 (some e1) none)
        now2 (some e2) none).nextUpdateTime =
      (now2 + WeatherService.RETRY_DELAY_SECS) % MOD32 ∧
    (WeatherService.fetchTask (WeatherService.fetchTask s now1 (some e1) none)
        now2 (some e2) none).state = s.state ∧
    (WeatherService.fetchTask
        (WeatherService.fetchTask
          (WeatherService.fetchTask s now1 (some e1) none)
          now2 (some e2) none)
        now3 (some e3) none).state = WeatherService.WeatherState.ERROR ∧
    (WeatherService.fetchTask
        (WeatherService.fetchTask
          (WeatherService.fetchTask s now1 (some e1) none)
          now2 (some e2) none)
        now3 (some e3) none).nextUpdateTime =
      (now3 + s.updateIntervalSecs) % MOD32 ∧
    (WeatherService.fetchTask
        (WeatherService.fetchTask
          (WeatherService.fetchTask s now1 (some e1) none)
          now2 (some e2) none)
        now3 (some e3) none).retryCount = 0 := by
  simp [WeatherService.fetchTask, WeatherService.fetchLocation,
        WeatherService.failRetry, WeatherService.MAX_RETRIES, hrc, hneed]

/-- Witness for claim C5 at a concrete boot configuration and times. -/
theorem c5_retry_ceiling_witness :
    (WeatherService.fetchTask
        (WeatherService.fetchTask
          (WeatherService.fetchTask
            { WeatherService.initialServiceState with fetchNeedsLocation := true }
            1000 (some .HTTP_TIMEOUT) none)
          2000 (some .HTTP_TIMEOUT) none)
        3000 (some .HTTP_TIMEOUT) none).state =
      WeatherService.WeatherState.ERROR ∧
    (WeatherService.fetchTask
        (WeatherService.fetchTask
          (WeatherService.fetchTask
            { WeatherService.initialServiceState with fetchNeedsLocation := true }
            1000 (some .HTTP_TIMEOUT) none)
          2000 (some .HTTP_TIMEOUT) none)
        3000 (some .HTTP_TIMEOUT) none).nextUpdateTime =
      (3000 + WeatherService.DEFAULT_UPDATE_INTERVAL) % MOD32 := by
  have h := c5_retry_ceiling
    { WeatherService.initialServiceState with fetchNeedsLocation := true }
    1000 2000 3000 .HTTP_TIMEOUT .HTTP_TIMEOUT .HTTP_TIMEOUT rfl rfl
  exact ⟨h.2.2.2.2.2.2.1, h.2.2.2.2.2.2.2.1⟩

theorem WeatherService.update_fip (s : WeatherService.ServiceState)
    (nowMs : Nat) (c ok : Bool) :
    (WeatherService.update s nowMs c ok).1.fetchInProgress =
      (s.fetchInProgress || (WeatherService.update s nowMs c ok).2) := by
  unfold WeatherService.update WeatherService.startBackgroundFetch
  split_ifs <;> simp_all <;> split_ifs <;> simp_all

theorem WeatherService.update_spawn_free (s : WeatherService.ServiceState)
    (nowMs : Nat) (c ok : Bool)
    (h : (WeatherService.update s nowMs c ok).2 = true) :
    s.fetchInProgress = false := by
  by_contra hc
  simp only [Bool.not_eq_false] at hc
  simp [WeatherService.update, hc] at h

theorem WeatherService.forceUpdate_fip (s : WeatherService.ServiceState)
    (w ok : Bool) :
    (WeatherService.forceUpdate s w ok).2.1.fetchInProgress =
      (s.fetchInProgress || (WeatherService.forceUpdate s w ok).2.2) := by
  unfold WeatherService.forceUpdate WeatherService.startBackgroundFetch
  split_ifs <;> simp_all

theorem WeatherService.forceUpdate_spawn_free (s : WeatherService.ServiceState)
    (w ok : Bool) (h : (WeatherService.forceUpdate s w ok).2.2 = true) :
    s.fetchInProgress = false := by
  by_contra hc
  simp only [Bool.not_eq_false] at hc
  simp [WeatherService.forceUpdate, hc] at h

theorem WeatherService.fetchTask_fip (s : WeatherService.ServiceState)
    (now : Nat) (a b : WeatherService.FetchOutcome) :
    (WeatherService.fetchTask s now a b).fetchInProgress = false := by
  unfold WeatherService.fetchTask WeatherService.fetchLocation
    WeatherService.fetchWeather WeatherService.failRetry
  rcases a with _ | ea <;> rcases b with _ | eb <;> split_ifs <;> simp_all

theorem WeatherService.inflight_invariant (sys : WeatherService.Sys)
    (h : WeatherService.SysReachable sys) : WeatherService.InFlightInv sys := by
  induction h with
  | boot s hs =>
    exact ⟨fun hcontra => by simp [hs] at hcontra, fun _ => rfl⟩
  | @step a b ha hs ih =>
    cases hs with
    | tick nowMs c ok =>
      constructor
      · intro hfip
        rw [WeatherService.update_fip] at hfip
        cases hsp : (WeatherService.update a.svc nowMs c ok).2 with
        | false =>
          rw [hsp, Bool.or_false] at hfip
          simp [hsp, ih.1 hfip]
        | true =>
          have hfree := WeatherService.update_spawn_free a.svc nowMs c ok hsp
          simp [hsp, ih.2 hfree]
      · intro hfip
        rw [WeatherService.update_fip] at hfip
        simp only [Bool.or_eq_false_iff] at hfip
        simp [hfip.2, ih.2 hfip.1]
    | force w ok =>
      constructor
      · intro hfip
        rw [WeatherService.forceUpdate_fip] at hfip
        cases hsp : (WeatherService.forceUpdate a.svc w ok).2.2 with
        | false =>
          rw [hsp, Bool.or_false] at hfip
          simp [hsp, ih.1 hfip]
        | true =>
          have hfree := WeatherService.forceUpdate_spawn_free a.svc w ok hsp
          simp [hsp, ih.2 hfree]
      · intro hfip
        rw [WeatherService.forceUpdate_fip] at hfip
        simp only [Bool.or_eq_false_iff] at hfip
        simp [hfip.2, ih.2 hfip.1]
    | complete now lo wo htask =>
      constructor
      · intro hfip
        rw [WeatherService.fetchTask_fip] at hfip
        exact absurd hfip (by simp)
      · intro _
        show a.tasksInFlight - 1 = 0
        cases hf : a.svc.fetchInProgress with
        | false =>
          have h0 := ih.2 hf
          omega
        | true =>
          have h1 := ih.1 hf
          omega

/-- Claim C6.  While a fetch is in progress, `forceUpdate` returns false,
spawns no second worker task and leaves the service state unchanged; and in
every reachable state of the service system at most one background fetch task
is in flight. -/
theorem c6_single_fetch_guard :
    (∀ (s : WeatherService.ServiceState) (w ok : Bool),
       s.fetchInProgress = true →
       WeatherService.forceUpdate s w ok = (false, s, false)) ∧
    (∀ sys : WeatherService.Sys,
       WeatherService.SysReachable sys → sys.tasksInFlight ≤ 1) := by
  constructor
  · intro s w ok h
    simp [WeatherService.forceUpdate, h]
  · intro sys h
    have hinv := WeatherService.inflight_invariant sys h
    cases hf : sys.svc.fetchInProgress with
    | false =>
      have h0 := hinv.2 hf
      omega
    | true =>
      have h1 := hinv.1 hf
      omega

/-- Witness for claim C6: a concrete state with a fetch in progress is left
untouched by `forceUpdate`, and a concrete boot system state has at most one
task in flight. -/
theorem c6_single_fetch_guard_witness :
    WeatherService.forceUpdate
        { WeatherService.initialServiceState with fetchInProgress := true }
        true true =
      (false,
       { WeatherService.initialServiceState with fetchInProgress := true },
       false) ∧
    (⟨WeatherService.initialServiceState, 0⟩ :
        WeatherService.Sys).tasksInFlight ≤ 1 := by
  constructor
  · exact c6_single_fetch_guard.1 _ true true rfl
  · exact c6_single_fetch_guard.2 ⟨WeatherService.initialServiceState, 0⟩
      (WeatherService.SysReachable.boot _ rfl)

theorem RotaryEncoder.table_bound (p c : Nat) :
    RotaryEncoder.STATE_TABLE p c = 0 ∨ RotaryEncoder.STATE_TABLE p c = 1 ∨
    RotaryEncoder.STATE_TABLE p c = -1 := by
  unfold RotaryEncoder.STATE_TABLE
  split <;> simp

theorem RotaryEncoder.readEncoder_spec (s : RotaryEncoder.State)
    (enc now : Nat) (hspd : 1 ≤ s.stepsPerDetent)
    (hacc : s.stepAccumulator.natAbs < s.stepsPerDetent) :
    (RotaryEncoder.readEncoder s enc now).1.stepsPerDetent =
      s.stepsPerDetent ∧
    (RotaryEncoder.readEncoder s enc now).1.stepAccumulator.natAbs <
      s.stepsPerDetent ∧
    (RotaryEncoder.readEncoder s enc now).1.position =
      s.position +
        RotaryEncoder.commitDelta (RotaryEncoder.readEncoder s enc now).2 ∧
    (match (RotaryEncoder.readEncoder s enc now).2 with
     | none => True
     | some c => c.1 = 1 ∨ c.1 = -1) := by
  by_cases h1 : enc = s.lastEncoded
  · simp [RotaryEncoder.readEncoder, RotaryEncoder.commitDelta, h1, hacc]
  · by_cases h2 : RotaryEncoder.STATE_TABLE s.lastEncoded enc = 0
    · simp [RotaryEncoder.readEncoder, RotaryEncoder.commitDelta, h1, h2, hacc]
    · have hdir : RotaryEncoder.STATE_TABLE s.lastEncoded enc = 1 ∨
          RotaryEncoder.STATE_TABLE s.lastEncoded enc = -1 := by
        rcases RotaryEncoder.table_bound s.lastEncoded enc with h | h | h
        · exact absurd h h2
        · exact Or.inl h
        · exact Or.inr h
      by_cases h3 : (s.stepAccumulator +
          RotaryEncoder.STATE_TABLE s.lastEncoded enc).natAbs ≥
          s.stepsPerDetent
      · have hn0 : ((s.stepsPerDetent : Int)) ≠ 0 := by
          simp
          omega
        have hval : s.stepAccumulator +
              RotaryEncoder.STATE_TABLE s.lastEncoded enc =
              (s.stepsPerDetent : Int) ∨
            s.stepAccumulator +
              RotaryEncoder.STATE_TABLE s.lastEncoded enc =
              -(s.stepsPerDetent : Int) := by
          rcases hdir with h | h <;> rw [h] <;> omega
        have htm : (s.stepAccumulator +
            RotaryEncoder.STATE_TABLE s.lastEncoded enc).tmod
            (s.stepsPerDetent : Int) = 0 := by
          rcases hval with hval | hval
          · rw [hval, Int.tmod_self]
          · rw [hval, Int.tmod_def, Int.neg_tdiv, Int.tdiv_self hn0]
            ring
        rcases hval with hval | hval
        · have htd : (s.stepAccumulator +
              RotaryEncoder.STATE_TABLE s.lastEncoded enc).tdiv
              (s.stepsPerDetent : Int) = 1 := by
            rw [hval, Int.tdiv_self hn0]
          by_cases h4 : s.accelerationEnabled = true
          · by_cases h5 : sub32 now s.lastRotationTime < s.accelerationThreshold
            all_goals
              simp [RotaryEncoder.readEncoder, RotaryEncoder.commitDelta,
                    h1, h2, h3, h4, h5, htd, htm, hspd]
            all_goals omega
          · simp [RotaryEncoder.readEncoder, RotaryEncoder.commitDelta,
                  h1, h2, h3, h4, htd, htm, hspd]
            omega
        · have htd : (s.stepAccumulator +
              RotaryEncoder.STATE_TABLE s.lastEncoded enc).tdiv
              (s.stepsPerDetent : Int) = -1 := by
            rw [hval, Int.neg_tdiv, Int.tdiv_self hn0]
          by_cases h4 : s.accelerationEnabled = true
          · by_cases h5 : sub32 now s.lastRotationTime < s.accelerationThreshold
            all_goals
              simp [RotaryEncoder.readEncoder, RotaryEncoder.commitDelta,
                    h1, h2, h3, h4, h5, htd, htm, hspd]
            all_goals omega
          · simp [RotaryEncoder.readEncoder, RotaryEncoder.commitDelta,
                  h1, h2, h3, h4, htd, htm, hspd]
            omega
      · simp [RotaryEncoder.readEncoder, RotaryEncoder.commitDelta,
              h1, h2, h3]
        rcases hdir with h | h <;> rw [h] <;> rw [h] at h3 <;> omega

theorem RotaryEncoder.commitSum_toList_append (c : Option (Int × Nat))
    (cs : List (Int × Nat)) :
    RotaryEncoder.commitSum (c.toList ++ cs) =
      RotaryEncoder.commitDelta c + RotaryEncoder.commitSum cs := by
  cases c <;> simp [RotaryEncoder.commitSum, RotaryEncoder.commitDelta]

theorem RotaryEncoder.runEnc_spec (inputs : List (Nat × Nat))
    (s : RotaryEncoder.State) (hspd : 1 ≤ s.stepsPerDetent)
    (hacc : s.stepAccumulator.natAbs < s.stepsPerDetent) :
    (RotaryEncoder.runEnc s inputs).1.position =
      s.position +
        RotaryEncoder.commitSum (RotaryEncoder.runEnc s inputs).2 ∧
    ∀ c ∈ (RotaryEncoder.runEnc s inputs).2, c.1 = 1 ∨ c.1 = -1 := by
  induction inputs generalizing s with
  | nil => simp [RotaryEncoder.runEnc, RotaryEncoder.commitSum]
  | cons x rest ih =>
    obtain ⟨enc, t⟩ := x
    have hspec := RotaryEncoder.readEncoder_spec s enc t hspd hacc
    rcases hre : RotaryEncoder.readEncoder s enc t with ⟨s1, c⟩
    rw [hre] at hspec
    dsimp only at hspec
    obtain ⟨hsp1, hacc1, hpos1, hclamp1⟩ := hspec
    have ih1 := ih s1 (by omega) (by omega)
    constructor
    · simp only [RotaryEncoder.runEnc, hre]
      rw [RotaryEncoder.commitSum_toList_append]
      have hp := ih1.1
      omega
    · intro p hp
      simp only [RotaryEncoder.runEnc, hre, List.mem_append] at hp
      rcases hp with hp | hp
      · cases c with
        | none => simp at hp
        | some c0 =>
          simp at hp
          subst hp
          simpa using hclamp1
      · exact ih1.2 p hp

/-- Claim C9.  For every input sequence of sampled encoder states (valid and
invalid transitions alike) and any configured steps-per-detent of at least 1,
the total position change equals the sum over all commits of the detent delta
times the step multiplier in effect at that commit, and every commit is
clamped to exactly ±1 detent (one detent per accumulator-threshold
crossing). -/
theorem c9_encoder_detent_integrity (spd : Nat) (hspd : 1 ≤ spd)
    (inputs : List (Nat × Nat)) :
    (RotaryEncoder.runEnc (RotaryEncoder.initialState spd) inputs).1.position =
      RotaryEncoder.commitSum
        (RotaryEncoder.runEnc (RotaryEncoder.initialState spd) inputs).2 ∧
    ∀ c ∈ (RotaryEncoder.runEnc (RotaryEncoder.initialState spd) inputs).2,
      c.1 = 1 ∨ c.1 = -1 := by
  have h := RotaryEncoder.runEnc_spec inputs (RotaryEncoder.initialState spd)
    (by simpa [RotaryEncoder.initialState] using hspd)
    (by simp [RotaryEncoder.initialState]; omega)
  simpa [RotaryEncoder.initialState] using h

/-- Witness for claim C9: a 2-steps-per-detent encoder fed one full clockwise
quadrature cycle (00 → 01 → 11 → 10 → 00) commits exactly two +1 detents. -/
theorem c9_encoder_detent_integrity_witness :
    ((RotaryEncoder.runEnc (RotaryEncoder.initialState 2)
        [(1, 0), (3, 1), (2, 2), (0, 3)]).1.position =
      RotaryEncoder.commitSum
        (RotaryEncoder.runEnc (RotaryEncoder.initialState 2)
          [(1, 0), (3, 1), (2, 2), (0, 3)]).2 ∧
     ∀ c ∈ (RotaryEncoder.runEnc (RotaryEncoder.initialState 2)
        [(1, 0), (3, 1), (2, 2), (0, 3)]).2, c.1 = 1 ∨ c.1 = -1) ∧
    (RotaryEncoder.runEnc (RotaryEncoder.initialState 2)
        [(1, 0), (3, 1), (2, 2), (0, 3)]).1.position = 2 := by
  constructor
  · exact c9_encoder_detent_integrity 2 (by decide) [(1, 0), (3, 1), (2, 2), (0, 3)]
  · decide

theorem AnimationEngine.advanceFrame_keeps (s : AnimationEngine.EngineState)
    (a : AnimationEngine.Animation) (ha : s.currentAnimation = some a)
    (h1 : 1 ≤ a.frameCount) (h2 : a.frameCount ≤ 255)
    (hf : s.currentFrame < a.frameCount) :
    (AnimationEngine.advanceFrame s).currentAnimation = some a ∧
    (AnimationEngine.advanceFrame s).currentFrame < a.frameCount := by
  simp only [AnimationEngine.advanceFrame, ha]
  split_ifs <;> constructor <;> first | rfl | (dsimp only; omega)

/-- Claim C10.  In every state reachable through the public operations of the
animation engine, `_playing = true` implies that `_currentAnimation` is not
null, so the unguarded dereference `_currentAnimation->loop` in `play` never
reads through a null pointer. -/
theorem c10_playing_implies_animation (reg : AnimationEngine.Registry)
    (s : AnimationEngine.EngineState) (h : AnimationEngine.Reachable reg s)
    (hp : s.playing = true) : s.currentAnimation ≠ none := by
  induction h with
  | init => simp [AnimationEngine.initialState] at hp
  | @step s0 op hr ih =>
    cases op with
    | play st priority forceLoop now =>
      revert hp
      simp only [AnimationEngine.applyOp, AnimationEngine.play]
      split_ifs with h1 h2
      · exact fun hp => ih hp
      · exact fun hp => ih hp
      · cases hr : reg st with
        | none => exact fun hp => ih hp
        | some anim => simp
    | stop =>
      simp [AnimationEngine.applyOp, AnimationEngine.stop] at hp
    | setPaused p now =>
      revert hp
      simp only [AnimationEngine.applyOp, AnimationEngine.setPaused]
      split_ifs <;> exact fun hp => ih hp
    | update now =>
      revert hp
      simp only [AnimationEngine.applyOp, AnimationEngine.update]
      split_ifs with h1 h2
      · exact fun hp => ih hp
      · cases ha : s0.currentAnimation with
        | none =>
          simp [ha] at h1
        | some a =>
          simp only [AnimationEngine.advanceFrame, ha]
          split_ifs <;> simp
      · exact fun hp => ih hp
    | showStaticFrame st fi =>
      revert hp
      simp only [AnimationEngine.applyOp, AnimationEngine.showStaticFrame]
      cases hr : reg st with
      | none => exact fun hp => ih hp
      | some anim =>
        dsimp only
        split_ifs
        · exact fun hp => ih hp
        · simp
    | pauseOnFrame fi =>
      revert hp
      simp only [AnimationEngine.applyOp, AnimationEngine.pauseOnFrame]
      cases ha : s0.currentAnimation with
      | none => exact fun hp => ih hp
      | some a =>
        dsimp only
        split_ifs <;> simp [ha]
    | stopLoopingGracefully =>
      revert hp
      simp only [AnimationEngine.applyOp, AnimationEngine.stopLoopingGracefully]
      split_ifs <;> exact fun hp => ih hp
    | stopForcedLoop =>
      revert hp
      simp only [AnimationEngine.applyOp, AnimationEngine.stopForcedLoop]
      split_ifs <;> exact fun hp => ih hp
    | setGlobalFPS fps =>
      exact ih hp
    | setAutoReturnToIdle b =>
      exact ih hp

theorem AnimationEngine.engine_inv (reg : AnimationEngine.Registry)
    (hreg : AnimationEngine.WFRegistry reg) (s : AnimationEngine.EngineState)
    (h : AnimationEngine.Reachable reg s) :
    ∀ a, s.currentAnimation = some a →
      (∃ st, reg st = some a) ∧ s.currentFrame < a.frameCount := by
  induction h with
  | init =>
    intro a ha
    simp [AnimationEngine.initialState] at ha
  | @step s0 op hr ih =>
    intro a ha
    cases op with
    | play st priority forceLoop now =>
      revert ha
      simp only [AnimationEngine.applyOp, AnimationEngine.play]
      split_ifs with h1 h2
      · exact ih a
      · exact ih a
      · cases hgr : reg st with
        | none => exact ih a
        | some anim =>
          dsimp only
          intro ha
          obtain rfl := Option.some.inj ha
          refine ⟨⟨st, hgr⟩, ?_⟩
          have hb := hreg st anim hgr
          omega
    | stop =>
      revert ha
      simp only [AnimationEngine.applyOp, AnimationEngine.stop]
      intro ha
      obtain ⟨⟨st0, hst0⟩, _⟩ := ih a ha
      refine ⟨⟨st0, hst0⟩, ?_⟩
      have hb := hreg st0 a hst0
      omega
    | setPaused p now =>
      revert ha
      simp only [AnimationEngine.applyOp, AnimationEngine.setPaused]
      split_ifs <;> dsimp only <;> exact ih a
    | update now =>
      revert ha
      simp only [AnimationEngine.applyOp, AnimationEngine.update]
      split_ifs with h1 h2
      · exact ih a
      · cases ha0 : s0.currentAnimation with
        | none => simp [ha0] at h1
        | some a0 =>
          intro ha
          obtain ⟨hex, hfr⟩ := ih a0 ha0
          obtain ⟨st0, hst0⟩ := hex
          have hb := hreg st0 a0 hst0
          have hkeep := AnimationEngine.advanceFrame_keeps
            { s0 with currentAnimation := some a0, lastFrameTime := now } a0
            rfl hb.1 hb.2 hfr
          rw [hkeep.1] at ha
          obtain rfl := Option.some.inj ha
          exact ⟨⟨st0, hst0⟩, hkeep.2⟩
      · exact ih a
    | showStaticFrame st fi =>
      revert ha
      simp only [AnimationEngine.applyOp, AnimationEngine.showStaticFrame]
      cases hgr : reg st with
      | none => exact ih a
      | some anim =>
        dsimp only
        split_ifs with h1
        · exact ih a
        · intro ha
          obtain rfl := Option.some.inj ha
          refine ⟨⟨st, hgr⟩, ?_⟩
          show fi < anim.frameCount
          omega
    | pauseOnFrame fi =>
      revert ha
      simp only [AnimationEngine.applyOp, AnimationEngine.pauseOnFrame]
      cases ha0 : s0.currentAnimation with
      | none => exact ih a
      | some a0 =>
        dsimp only
        split_ifs with h1
        · intro ha
          have ha2 : some a0 = some a := ha
          obtain rfl := Option.some.inj ha2
          exact ⟨(ih a0 ha0).1, h1⟩
        · exact ih a
    | stopLoopingGracefully =>
      revert ha
      simp only [AnimationEngine.applyOp, AnimationEngine.stopLoopingGracefully]
      split_ifs <;> exact ih a
    | stopForcedLoop =>
      revert ha
      simp only [AnimationEngine.applyOp, AnimationEngine.stopForcedLoop]
      split_ifs <;> exact ih a
    | setGlobalFPS fps =>
      revert ha
      simp only [AnimationEngine.applyOp, AnimationEngine.setGlobalFPS]
      exact ih a
    | setAutoReturnToIdle b =>
      revert ha
      simp only [AnimationEngine.applyOp, AnimationEngine.setAutoReturnToIdle]
      exact ih a

/-- Claim C4.  In every reachable engine state whose registry only holds
well-formed animations (nonempty, `uint8_t`-sized frame counts, as the
built-in idle/wink/surprised/dizzy animations are), a set current animation
bounds the current frame index: `currentFrame < frameCount`.  The lower bound
`0 ≤ currentFrame` holds because the frame index is unsigned. -/
theorem c4_frame_in_bounds (reg : AnimationEngine.Registry)
    (hreg : AnimationEngine.WFRegistry reg) (s : AnimationEngine.EngineState)
    (h : AnimationEngine.Reachable reg s) (a : AnimationEngine.Animation)
    (ha : s.currentAnimation = some a) : s.currentFrame < a.frameCount :=
  (AnimationEngine.engine_inv reg hreg s h a ha).2

theorem AnimationEngine.loopingReg_wf :
    AnimationEngine.WFRegistry AnimationEngine.loopingReg := by
  intro st a hx
  cases st <;> simp [AnimationEngine.loopingReg] at hx
  rw [← hx]
  simp [AnimationEngine.loopingAnim]

/-- Witness for claim C4: after playing the registered dizzy animation the
frame index 0 is below its frame count 2. -/
theorem c4_frame_in_bounds_witness :
    (AnimationEngine.applyOp AnimationEngine.loopingReg
        AnimationEngine.initialState
        (.play .DIZZY false true 0)).currentFrame <
      AnimationEngine.loopingAnim.frameCount :=
  c4_frame_in_bounds AnimationEngine.loopingReg AnimationEngine.loopingReg_wf
    _ (AnimationEngine.Reachable.step (.play .DIZZY false true 0)
        AnimationEngine.Reachable.init)
    AnimationEngine.loopingAnim (by simp [AnimationEngine.applyOp,
      AnimationEngine.play, AnimationEngine.initialState,
      AnimationEngine.loopingReg, AnimationEngine.loopOfCurrent])

/-- Witness for claim C10: in the reachable state right after playing the
dizzy animation, `playing` is true and the current animation is set. -/
theorem c10_playing_implies_animation_witness :
    (AnimationEngine.applyOp AnimationEngine.loopingReg
        AnimationEngine.initialState
        (.play .DIZZY false true 0)).currentAnimation ≠ none :=
  c10_playing_implies_animation AnimationEngine.loopingReg _
    (AnimationEngine.Reachable.step (.play .DIZZY false true 0)
      AnimationEngine.Reachable.init)
    (by simp [AnimationEngine.applyOp, AnimationEngine.play,
      AnimationEngine.initialState, AnimationEngine.loopingReg,
      AnimationEngine.loopOfCurrent])

theorem AnimationEngine.advanceFrame_mid (s : AnimationEngine.EngineState)
    (a : AnimationEngine.Animation) (ha : s.currentAnimation = some a)
    (h2 : a.frameCount ≤ 255) (hfr : s.currentFrame + 1 < a.frameCount) :
    AnimationEngine.advanceFrame s =
      { s with currentFrame := s.currentFrame + 1 } := by
  simp only [AnimationEngine.advanceFrame, ha]
  rw [Nat.mod_eq_of_lt (by omega), if_neg (by omega)]

theorem AnimationEngine.advanceFrame_last (s : AnimationEngine.EngineState)
    (a : AnimationEngine.Animation) (ha : s.currentAnimation = some a)
    (hcl : s.continuousLoop = false) (hl : a.loop = false)
    (h2 : a.frameCount ≤ 255) (hfr : s.currentFrame + 1 = a.frameCount) :
    AnimationEngine.advanceFrame s =
      { s with currentFrame := a.frameCount - 1
               playing := false
               continuousLoop := false
               forceLoop := false } := by
  simp only [AnimationEngine.advanceFrame, ha]
  rw [Nat.mod_eq_of_lt (by omega), if_pos (by omega),
      if_neg (by simp [hl, hcl])]
  have hc : (a.frameCount + 255) % 256 = a.frameCount - 1 := by omega
  rw [hc]

theorem AnimationEngine.nonloop_iter (a : AnimationEngine.Animation)
    (h2 : a.frameCount ≤ 255) :
    ∀ (k : Nat) (s : AnimationEngine.EngineState),
      s.currentAnimation = some a →
      s.currentFrame + k < a.frameCount →
      (AnimationEngine.advanceFrame)^[k] s =
        { s with currentFrame := s.currentFrame + k } := by
  intro k
  induction k with
  | zero => intro s _ _; simp
  | succ k ih =>
    intro s ha hfr
    rw [Function.iterate_succ_apply]
    rw [AnimationEngine.advanceFrame_mid s a ha h2 (by omega)]
    rw [ih _ (by simpa using ha) (by dsimp only; omega)]
    dsimp only
    have harith : s.currentFrame + 1 + k = s.currentFrame + (k + 1) := by omega
    rw [harith]

theorem AnimationEngine.forceloop_iter (a : AnimationEngine.Animation)
    (h1 : 1 ≤ a.frameCount) (h2 : a.frameCount ≤ 255) :
    ∀ (k : Nat) (s : AnimationEngine.EngineState),
      s.currentAnimation = some a →
      s.continuousLoop = true →
      s.playing = true →
      s.currentFrame < a.frameCount →
      ((AnimationEngine.advanceFrame)^[k] s).currentAnimation = some a ∧
      ((AnimationEngine.advanceFrame)^[k] s).continuousLoop = true ∧
      ((AnimationEngine.advanceFrame)^[k] s).playing = true ∧
      ((AnimationEngine.advanceFrame)^[k] s).currentFrame < a.frameCount := by
  intro k
  induction k with
  | zero => intro s ha hcl hp hfr; exact ⟨ha, hcl, hp, hfr⟩
  | succ k ih =>
    intro s ha hcl hp hfr
    rw [Function.iterate_succ_apply]
    have hstep : (AnimationEngine.advanceFrame s).currentAnimation = some a ∧
        (AnimationEngine.advanceFrame s).continuousLoop = true ∧
        (AnimationEngine.advanceFrame s).playing = true ∧
        (AnimationEngine.advanceFrame s).currentFrame < a.frameCount := by
      simp only [AnimationEngine.advanceFrame, ha]
      rw [Nat.mod_eq_of_lt (by omega)]
      split_ifs with hc1 hc2
      · exact ⟨rfl, hcl, hp, by show 0 < a.frameCount; omega⟩
      · simp [hcl] at hc2
      · exact ⟨rfl, hcl, hp, by show s.currentFrame + 1 < a.frameCount; omega⟩
    exact ih _ hstep.1 hstep.2.1 hstep.2.2.1 hstep.2.2.2

theorem AnimationEngine.play_init (reg : AnimationEngine.Registry)
    (st : AnimationEngine.AnimState) (a : AnimationEngine.Animation)
    (pr fl : Bool) (now : Nat) (hreg : reg st = some a) :
    AnimationEngine.play reg AnimationEngine.initialState st pr fl now =
      { currentState := st
        previousState := .IDLE
        currentAnimation := some a
        currentFrame := 0
        lastFrameTime := now
        globalFPS := 0
        playing := true
        paused := false
        autoReturnToIdle := true
        forceLoop := fl
        continuousLoop := fl } := by
  simp [AnimationEngine.play, AnimationEngine.initialState,
        AnimationEngine.loopOfCurrent, hreg]

theorem AnimationEngine.nonloop_halt_iter (a : AnimationEngine.Animation)
    (h2 : a.frameCount ≤ 255) (hl : a.loop = false) :
    ∀ (k : Nat) (s : AnimationEngine.EngineState), 1 ≤ k →
      s.currentAnimation = some a →
      s.continuousLoop = false →
      s.currentFrame + k = a.frameCount →
      (AnimationEngine.advanceFrame)^[k] s =
        { s with currentFrame := a.frameCount - 1
                 playing := false
                 continuousLoop := false
                 forceLoop := false } := by
  intro k
  induction k with
  | zero => intro s hk; omega
  | succ k ih =>
    intro s hk ha hcl hfr
    rcases Nat.eq_zero_or_pos k with hk0 | hk1
    · subst hk0
      rw [Function.iterate_one]
      exact AnimationEngine.advanceFrame_last s a ha hcl hl h2 (by omega)
    · rw [Function.iterate_succ_apply]
      rw [AnimationEngine.advanceFrame_mid s a ha h2 (by omega)]
      rw [ih _ hk1 (by simpa using ha) (by simpa using hcl)
            (by dsimp only; omega)]

theorem AnimationEngine.nonloop_complete (s : AnimationEngine.EngineState)
    (a : AnimationEngine.Animation) (ha : s.currentAnimation = some a)
    (hcl : s.continuousLoop = false) (hp : s.playing = true)
    (hf0 : s.currentFrame = 0) (hl : a.loop = false)
    (h1 : 1 ≤ a.frameCount) (h2 : a.frameCount ≤ 255) :
    (∀ k, k < a.frameCount →
      ((AnimationEngine.advanceFrame)^[k] s).playing = true ∧
      ((AnimationEngine.advanceFrame)^[k] s).currentFrame = k) ∧
    ((AnimationEngine.advanceFrame)^[a.frameCount] s).playing = false ∧
    ((AnimationEngine.advanceFrame)^[a.frameCount] s).currentFrame =
      a.frameCount - 1 ∧
    (∀ t, AnimationEngine.update
        ((AnimationEngine.advanceFrame)^[a.frameCount] s) t =
      (AnimationEngine.advanceFrame)^[a.frameCount] s) := by
  have hlast := AnimationEngine.nonloop_halt_iter a h2 hl a.frameCount s h1
    ha hcl (by omega)
  refine ⟨?_, ?_, ?_, ?_⟩
  · intro k hk
    rw [AnimationEngine.nonloop_iter a h2 k s ha (by omega)]
    exact ⟨hp, by dsimp only; omega⟩
  · rw [hlast]
  · rw [hlast]
  · intro t
    rw [hlast]
    simp [AnimationEngine.update]

theorem AnimationEngine.graceful_stop_ends_cycle
    (t : AnimationEngine.EngineState) (a : AnimationEngine.Animation)
    (ha : t.currentAnimation = some a) (hcl : t.continuousLoop = true)
    (hp : t.playing = true) (hf : t.currentFrame < a.frameCount)
    (hl : a.loop = false) (h1 : 1 ≤ a.frameCount) (h2 : a.frameCount ≤ 255) :
    ((AnimationEngine.advanceFrame)^[a.frameCount - t.currentFrame]
      (AnimationEngine.stopLoopingGracefully t)).playing = false ∧
    ((AnimationEngine.advanceFrame)^[a.frameCount - t.currentFrame]
      (AnimationEngine.stopLoopingGracefully t)).currentFrame =
      a.frameCount - 1 ∧
    a.frameCount - t.currentFrame ≤ a.frameCount := by
  have hstop : AnimationEngine.stopLoopingGracefully t =
      { t with continuousLoop := false } := by
    simp [AnimationEngine.stopLoopingGracefully, hcl]
  have hlast := AnimationEngine.nonloop_halt_iter a h2 hl
    (a.frameCount - t.currentFrame) { t with continuousLoop := false }
    (by omega) ha rfl (by dsimp only; omega)
  rw [hstop, hlast]
  exact ⟨rfl, rfl, by omega⟩

/-- Claim C3, counterexample.  The two-frame `loopingAnim` has its own loop
flag set.  Played with `forceLoop = true` and then told to stop gracefully,
it is still playing after 5 further frame advances — more than the one full
cycle (2 advances) within which the claim says playback halts — because
`advanceFrame` keeps looping whenever the animation's own loop flag OR the
continuous-loop flag is set. -/
theorem c3_counterexample :
    AnimationEngine.loopingAnim.loop = true ∧
    ((AnimationEngine.advanceFrame)^[5]
      (AnimationEngine.stopLoopingGracefully
        (AnimationEngine.play AnimationEngine.loopingReg
          AnimationEngine.initialState .DIZZY false true 0))).playing =
      true := by decide

/-- Claim C3, amended.  For a registered animation `a` (nonempty, `uint8_t`
frame count): (i) played with `loop = false` and `forceLoop = false`,
playback stays live for the first `frameCount - 1` advances, halts exactly at
advance number `frameCount` holding frame `frameCount - 1`, and further
`update` calls leave the halted state unchanged; (ii) played with
`forceLoop = true`, playback never halts under repeated advances; (iii) after
`stopLoopingGracefully`, provided the animation's OWN loop flag is false,
playback halts at the end of the cycle in progress — within at most one more
full cycle — holding the last frame.  (The counterexample shows (iii) fails
without the own-loop-flag proviso, which is the only strengthening the code
forces.) -/
theorem c3_loop_semantics (reg : AnimationEngine.Registry)
    (st : AnimationEngine.AnimState) (a : AnimationEngine.Animation)
    (pr : Bool) (now : Nat) (hreg : reg st = some a)
    (h1 : 1 ≤ a.frameCount) (h2 : a.frameCount ≤ 255)
    (s0 s1 : AnimationEngine.EngineState)
    (hs0 : s0 = AnimationEngine.play reg AnimationEngine.initialState st pr
      false now)
    (hs1 : s1 = AnimationEngine.play reg AnimationEngine.initialState st pr
      true now) :
    (a.loop = false →
      (∀ k, k < a.frameCount →
        ((AnimationEngine.advanceFrame)^[k] s0).playing = true ∧
        ((AnimationEngine.advanceFrame)^[k] s0).currentFrame = k) ∧
      ((AnimationEngine.advanceFrame)^[a.frameCount] s0).playing = false ∧
      ((AnimationEngine.advanceFrame)^[a.frameCount] s0).currentFrame =
        a.frameCount - 1 ∧
      (∀ t, AnimationEngine.update
          ((AnimationEngine.advanceFrame)^[a.frameCount] s0) t =
        (AnimationEngine.advanceFrame)^[a.frameCount] s0)) ∧
    (∀ k, ((AnimationEngine.advanceFrame)^[k] s1).playing = true) ∧
    (a.loop = false → ∀ k,
      ((AnimationEngine.advanceFrame)^[a.frameCount -
          ((AnimationEngine.advanceFrame)^[k] s1).currentFrame]
        (AnimationEngine.stopLoopingGracefully
          ((AnimationEngine.advanceFrame)^[k] s1))).playing = false ∧
      ((AnimationEngine.advanceFrame)^[a.frameCount -
          ((AnimationEngine.advanceFrame)^[k] s1).currentFrame]
        (AnimationEngine.stopLoopingGracefully
          ((AnimationEngine.advanceFrame)^[k] s1))).currentFrame =
        a.frameCount - 1 ∧
      a.frameCount - ((AnimationEngine.advanceFrame)^[k] s1).currentFrame ≤
        a.frameCount) := by
  subst hs0 hs1
  rw [AnimationEngine.play_init reg st a pr false now hreg,
      AnimationEngine.play_init reg st a pr true now hreg]
  have hJ := fun k => AnimationEngine.forceloop_iter a h1 h2 k
    { currentState := st
      previousState := .IDLE
      currentAnimation := some a
      currentFrame := 0
      lastFrameTime := now
      globalFPS := 0
      playing := true
      paused := false
      autoReturnToIdle := true
      forceLoop := true
      continuousLoop := true } rfl rfl rfl (by show 0 < a.frameCount; omega)
  refine ⟨?_, ?_, ?_⟩
  · intro hl
    exact AnimationEngine.nonloop_complete _ a rfl rfl rfl rfl hl h1 h2
  · intro k
    exact (hJ k).2.2.1
  · intro hl k
    exact AnimationEngine.graceful_stop_ends_cycle _ a (hJ k).1 (hJ k).2.1
      (hJ k).2.2.1 (hJ k).2.2.2 hl h1 h2

/-- Witness for the amended claim C3 on the concrete three-frame one-shot
animation: it halts after exactly 3 advances holding frame 2, while a
force-looped playback of the same animation is still live after 10
advances. -/
theorem c3_loop_semantics_witness :
    ((AnimationEngine.advanceFrame)^[3]
      (AnimationEngine.play AnimationEngine.oneShotReg
        AnimationEngine.initialState .WINK false false 0)).playing = false ∧
    ((AnimationEngine.advanceFrame)^[3]
      (AnimationEngine.play AnimationEngine.oneShotReg
        AnimationEngine.initialState .WINK false false 0)).currentFrame = 2 ∧
    ((AnimationEngine.advanceFrame)^[10]
      (AnimationEngine.play AnimationEngine.oneShotReg
        AnimationEngine.initialState .WINK false true 0)).playing = true := by
  have h := c3_loop_semantics AnimationEngine.oneShotReg .WINK
    AnimationEngine.oneShotAnim false 0 rfl (by decide) (by decide)
    _ _ rfl rfl
  have hA := h.1 rfl
  exact ⟨hA.2.1, hA.2.2.1, h.2.1 10⟩

theorem MenuSystem.updateScrollOffset_spec (s : MenuSystem.NavState)
    (hmv : 1 ≤ s.maxVisibleItems) :
    (MenuSystem.updateScrollOffset s).selectedIndex = s.selectedIndex ∧
    (MenuSystem.updateScrollOffset s).maxVisibleItems = s.maxVisibleItems ∧
    (MenuSystem.updateScrollOffset s).currentMenu = s.currentMenu ∧
    (MenuSystem.updateScrollOffset s).scrollOffset ≤ s.selectedIndex ∧
    s.selectedIndex <
      (MenuSystem.updateScrollOffset s).scrollOffset + s.maxVisibleItems := by
  unfold MenuSystem.updateScrollOffset
  split_ifs with hc1 hc2 <;> refine ⟨rfl, rfl, rfl, ?_, ?_⟩ <;> dsimp only <;>
    omega

theorem MenuSystem.navigate_inv (s : MenuSystem.NavState)
    (d : MenuSystem.MenuNav) (hmv : 1 ≤ s.maxVisibleItems)
    (hsel : s.selectedIndex < max 1 (MenuSystem.getCurrentMenuItemCount s))
    (hw1 : s.scrollOffset ≤ s.selectedIndex)
    (hw2 : s.selectedIndex < s.scrollOffset + s.maxVisibleItems) :
    (MenuSystem.navigate s d).maxVisibleItems = s.maxVisibleItems ∧
    (MenuSystem.navigate s d).selectedIndex <
      max 1 (MenuSystem.getCurrentMenuItemCount (MenuSystem.navigate s d)) ∧
    (MenuSystem.navigate s d).scrollOffset ≤
      (MenuSystem.navigate s d).selectedIndex ∧
    (MenuSystem.navigate s d).selectedIndex <
      (MenuSystem.navigate s d).scrollOffset +
        (MenuSystem.navigate s d).maxVisibleItems := by
  unfold MenuSystem.navigate
  dsimp only
  by_cases hc0 : MenuSystem.getCurrentMenuItemCount s = 0
  · rw [if_pos hc0]
    exact ⟨rfl, hsel, hw1, hw2⟩
  · rw [if_neg hc0]
    cases d with
    | UP =>
      dsimp only
      by_cases hc1 : s.selectedIndex > 0
      · rw [if_pos hc1]
        have hu := MenuSystem.updateScrollOffset_spec
          { s with selectedIndex := s.selectedIndex - 1 } (by simpa using hmv)
        obtain ⟨hu1, hu2, hu3, hu4, hu5⟩ := hu
        refine ⟨hu2, ?_, ?_, ?_⟩
        · rw [hu1]
          unfold MenuSystem.getCurrentMenuItemCount at *
          rw [hu3]
          dsimp only
          omega
        · rw [hu1]
          exact hu4
        · rw [hu1, hu2]
          exact hu5
      · rw [if_neg hc1]
        exact ⟨rfl, hsel, hw1, hw2⟩
    | DOWN =>
      dsimp only
      by_cases hc1 : s.selectedIndex < MenuSystem.getCurrentMenuItemCount s - 1
      · rw [if_pos hc1]
        have hu := MenuSystem.updateScrollOffset_spec
          { s with selectedIndex := s.selectedIndex + 1 } (by simpa using hmv)
        obtain ⟨hu1, hu2, hu3, hu4, hu5⟩ := hu
        refine ⟨hu2, ?_, ?_, ?_⟩
        · rw [hu1]
          unfold MenuSystem.getCurrentMenuItemCount at *
          rw [hu3]
          dsimp only
          omega
        · rw [hu1]
          exact hu4
        · rw [hu1, hu2]
          exact hu5
      · rw [if_neg hc1]
        exact ⟨rfl, hsel, hw1, hw2⟩
    | SELECT =>
      dsimp only
      unfold MenuSystem.executeCurrentItem
      cases hci : MenuSystem.getCurrentItem s with
      | none => exact ⟨rfl, hsel, hw1, hw2⟩
      | some it =>
        dsimp only
        by_cases he1 : it.isEnabled = true
        · rw [if_neg (by simp [he1])]
          by_cases he2 : it.hasChildren = true
          · rw [if_pos he2]
            unfold MenuSystem.enterSubmenu
            rw [hci]
            dsimp only
            rw [if_pos he2]
            by_cases hd : s.depth < MenuSystem.MAX_MENU_DEPTH
            · rw [if_pos hd]
              refine ⟨rfl, lt_of_lt_of_le Nat.zero_lt_one (le_max_left _ _),
                ?_, ?_⟩ <;> dsimp only <;> omega
            · rw [if_neg hd]
              refine ⟨rfl, lt_of_lt_of_le Nat.zero_lt_one (le_max_left _ _),
                ?_, ?_⟩ <;> dsimp only <;> omega
          · rw [if_neg he2]
            exact ⟨rfl, hsel, hw1, hw2⟩
        · rw [if_pos (by simp [he1])]
          exact ⟨rfl, hsel, hw1, hw2⟩
    | BACK =>
      dsimp only
      unfold MenuSystem.exitSubmenu
      by_cases hd : s.depth > 0
      · rw [if_pos hd]
        refine ⟨rfl, lt_of_lt_of_le Nat.zero_lt_one (le_max_left _ _),
          ?_, ?_⟩ <;> dsimp only <;> omega
      · rw [if_neg hd]
        exact ⟨rfl, hsel, hw1, hw2⟩

theorem MenuSystem.runNav_inv (navs : List MenuSystem.MenuNav)
    (s : MenuSystem.NavState) (hmv : 1 ≤ s.maxVisibleItems)
    (hsel : s.selectedIndex < max 1 (MenuSystem.getCurrentMenuItemCount s))
    (hw1 : s.scrollOffset ≤ s.selectedIndex)
    (hw2 : s.selectedIndex < s.scrollOffset + s.maxVisibleItems) :
    (MenuSystem.runNav s navs).maxVisibleItems = s.maxVisibleItems ∧
    (MenuSystem.runNav s navs).selectedIndex <
      max 1 (MenuSystem.getCurrentMenuItemCount (MenuSystem.runNav s navs)) ∧
    (MenuSystem.runNav s navs).scrollOffset ≤
      (MenuSystem.runNav s navs).selectedIndex ∧
    (MenuSystem.runNav s navs).selectedIndex <
      (MenuSystem.runNav s navs).scrollOffset +
        (MenuSystem.runNav s navs).maxVisibleItems := by
  induction navs generalizing s with
  | nil => exact ⟨rfl, hsel, hw1, hw2⟩
  | cons d rest ih =>
    have hstep := MenuSystem.navigate_inv s d hmv hsel hw1 hw2
    have hres := ih (MenuSystem.navigate s d) (by omega) hstep.2.1
      hstep.2.2.1 (by omega)
    simp only [MenuSystem.runNav]
    exact ⟨by omega, hres.2.1, hres.2.2.1, by omega⟩

/-- Claim C8.  After any sequence of UP/DOWN/SELECT/BACK navigation calls
from a freshly initialized menu (on a display tall enough for at least one
menu row, as the 64-pixel OLED is), the selection index is below
`max 1 childCount` and, whenever the current menu has children, the selection
lies inside the scroll viewport. -/
theorem c8_menu_bounds (root : MenuSystem.MenuItem) (displayHeight : Nat)
    (navs : List MenuSystem.MenuNav) (hmv : 1 ≤ (displayHeight - 10) / 12) :
    (MenuSystem.runNav (MenuSystem.init root displayHeight) navs).selectedIndex <
      max 1 (MenuSystem.getCurrentMenuItemCount
        (MenuSystem.runNav (MenuSystem.init root displayHeight) navs)) ∧
    (0 < MenuSystem.getCurrentMenuItemCount
        (MenuSystem.runNav (MenuSystem.init root displayHeight) navs) →
      (MenuSystem.runNav (MenuSystem.init root displayHeight) navs).scrollOffset ≤
        (MenuSystem.runNav (MenuSystem.init root displayHeight) navs).selectedIndex ∧
      (MenuSystem.runNav (MenuSystem.init root displayHeight) navs).selectedIndex ≤
        (MenuSystem.runNav (MenuSystem.init root displayHeight) navs).scrollOffset +
          (MenuSystem.runNav (MenuSystem.init root displayHeight) navs).maxVisibleItems -
          1) := by
  have h := MenuSystem.runNav_inv navs (MenuSystem.init root displayHeight)
    (by simpa [MenuSystem.init] using hmv)
    (by simp [MenuSystem.init])
    (by simp [MenuSystem.init])
    (by simp [MenuSystem.init]; omega)
  refine ⟨h.2.1, fun _ => ⟨h.2.2.1, ?_⟩⟩
  have h1 := h.1
  have h4 := h.2.2.2
  omega

/-- Witness for claim C8 on a concrete two-level menu and the standard
128x64 display (viewport capacity 4): a DOWN, SELECT, DOWN, BACK, UP
sequence keeps the selection and scroll window in bounds. -/
theorem c8_menu_bounds_witness :
    (MenuSystem.runNav (MenuSystem.init
        (.node .SUBMENU true 0 0 0
          [.node .SUBMENU true 0 0 0
            [.node .ACTION true 0 0 0 [], .node .ACTION true 0 0 0 []],
           .node .ACTION true 0 0 0 []]) 64)
        [.DOWN, .SELECT, .DOWN, .BACK, .UP]).selectedIndex <
      max 1 (MenuSystem.getCurrentMenuItemCount
        (MenuSystem.runNav (MenuSystem.init
          (.node .SUBMENU true 0 0 0
            [.node .SUBMENU true 0 0 0
              [.node .ACTION true 0 0 0 [], .node .ACTION true 0 0 0 []],
             .node .ACTION true 0 0 0 []]) 64)
          [.DOWN, .SELECT, .DOWN, .BACK, .UP])) := by
  exact (c8_menu_bounds
    (.node .SUBMENU true 0 0 0
      [.node .SUBMENU true 0 0 0
        [.node .ACTION true 0 0 0 [], .node .ACTION true 0 0 0 []],
       .node .ACTION true 0 0 0 []]) 64
    [.DOWN, .SELECT, .DOWN, .BACK, .UP] (by decide)).1

theorem MenuSystem.navigate_back_depth (s : MenuSystem.NavState)
    (hc : MenuSystem.getCurrentMenuItemCount s ≠ 0) (hd : 0 < s.depth) :
    (MenuSystem.navigate s .BACK).depth = s.depth - 1 := by
  unfold MenuSystem.navigate MenuSystem.exitSubmenu
  dsimp only
  rw [if_neg hc, if_pos hd]

/-- Claim C7.  A Long-Press button event delivered while the application mode
is Menu: at menu root (depth 0) the mode switches to the idle-animation mode
ANIMATIONS; otherwise the handler delegates exactly one BACK navigation step
(which pops one stack level whenever the current submenu is nonempty, as
reachable submenus always are) and the mode stays Menu. -/
theorem c7_long_press_in_menu (w : MainApp.World) (now : Nat)
    (hmode : w.currentMode = .MENU) :
    (w.menu.depth = 0 →
      (MainApp.onButtonEvent w .LONG_PRESS now).currentMode =
        MainApp.AppMode.ANIMATIONS) ∧
    (w.menu.depth ≠ 0 →
      (MainApp.onButtonEvent w .LONG_PRESS now).currentMode =
        MainApp.AppMode.MENU ∧
      (MainApp.onButtonEvent w .LONG_PRESS now).menu =
        MenuSystem.navigate w.menu .BACK ∧
      (MenuSystem.getCurrentMenuItemCount w.menu ≠ 0 →
        (MainApp.onButtonEvent w .LONG_PRESS now).menu.depth =
          w.menu.depth - 1)) := by
  unfold MainApp.onButtonEvent
  rw [if_neg (by simp [hmode]), if_pos hmode]
  dsimp only [MainApp.resetMenuTimeout]
  constructor
  · intro hd
    rw [if_pos (by simp [MenuSystem.isAtRoot, hd])]
  · intro hd
    rw [if_neg (by simp [MenuSystem.isAtRoot, hd])]
    refine ⟨hmode, rfl, fun hc => ?_⟩
    exact MenuSystem.navigate_back_depth w.menu hc (by omega)

/-- Witness for claim C7: a concrete world in Menu mode one level deep inside
a nonempty submenu goes back exactly one level and stays in Menu; the same
world at the root exits to ANIMATIONS. -/
theorem c7_long_press_in_menu_witness :
    (MainApp.onButtonEvent
      { currentMode := .MENU
        menu := MenuSystem.navigate (MenuSystem.init
          (.node .SUBMENU true 0 0 0
            [.node .SUBMENU true 0 0 0 [.node .ACTION true 0 0 0 []]]) 64)
          .SELECT
        encoderEditMode := false
        pomodoroState := .IDLE
        pomodoroTargetMs := 0
        pomodoroPausedRemaining := 0
        pomodoroCount := 0
        lastMenuActivity := 0 } .LONG_PRESS 5).currentMode =
      MainApp.AppMode.MENU ∧
    (MainApp.onButtonEvent
      { currentMode := .MENU
        menu := MenuSystem.navigate (MenuSystem.init
          (.node .SUBMENU true 0 0 0
            [.node .SUBMENU true 0 0 0 [.node .ACTION true 0 0 0 []]]) 64)
          .SELECT
        encoderEditMode := false
        pomodoroState := .IDLE
        pomodoroTargetMs := 0
        pomodoroPausedRemaining := 0
        pomodoroCount := 0
        lastMenuActivity := 0 } .LONG_PRESS 5).menu.depth = 0 ∧
    (MainApp.onButtonEvent
      { currentMode := .MENU
        menu := MenuSystem.init
          (.node .SUBMENU true 0 0 0
            [.node .SUBMENU true 0 0 0 [.node .ACTION true 0 0 0 []]]) 64
        encoderEditMode := false
        pomodoroState := .IDLE
        pomodoroTargetMs := 0
        pomodoroPausedRemaining := 0
        pomodoroCount := 0
        lastMenuActivity := 0 } .LONG_PRESS 5).currentMode =
      MainApp.AppMode.ANIMATIONS := by
  have hsub := c7_long_press_in_menu
    { currentMode := .MENU
      menu := MenuSystem.navigate (MenuSystem.init
        (.node .SUBMENU true 0 0 0
          [.node .SUBMENU true 0 0 0 [.node .ACTION true 0 0 0 []]]) 64)
        .SELECT
      encoderEditMode := false
      pomodoroState := .IDLE
      pomodoroTargetMs := 0
      pomodoroPausedRemaining := 0
      pomodoroCount := 0
      lastMenuActivity := 0 } 5 rfl
  have hroot := c7_long_press_in_menu
    { currentMode := .MENU
      menu := MenuSystem.init
        (.node .SUBMENU true 0 0 0
          [.node .SUBMENU true 0 0 0 [.node .ACTION true 0 0 0 []]]) 64
      encoderEditMode := false
      pomodoroState := .IDLE
      pomodoroTargetMs := 0
      pomodoroPausedRemaining := 0
      pomodoroCount := 0
      lastMenuActivity := 0 } 5 rfl
  have hdepth : (MenuSystem.navigate (MenuSystem.init
      (.node .SUBMENU true 0 0 0
        [.node .SUBMENU true 0 0 0 [.node .ACTION true 0 0 0 []]]) 64)
      .SELECT).depth = 1 := rfl
  refine ⟨(hsub.2 (by rw [hdepth]; omega)).1, ?_, hroot.1 rfl⟩
  have h3 := (hsub.2 (by rw [hdepth]; omega)).2.2 (by decide)
  rw [h3, hdepth]
